import Mathlib

/-!
# Session-backed authentication of the posting backend

A shallow embedding of `app/session/redis.go`, `app/handlers/auth.go`,
`app/handlers/post.go`, `app/middleware/auth.go` and the route table of
`app/main.go`, followed by theorems about the login / authorize / logout flow.

What lives outside the repository is kept outside the embedding:

* the JSON codec, bcrypt and the request-body decoders are the fields of `Lib`;
* the clock, the UUID generator and the reachability of the two stores are the
  fields of `Env`, one value per request;
* the Redis keyspace is an association list from key to (value, deadline), read
  against the clock of the request, and the relational tables are lists of rows.

Every handler threads a state `St` that holds the two stores, the response
writer of the request and the list of store calls made so far.
-/

namespace App

/-! ## Values shared by all packages -/

/-- A Go `error` value: the two sentinel errors the code compares against, or any
other error, of which only the text is kept. -/
inductive Error where
  | ErrNoRows
  | Nil
  | msg (text : String)
deriving DecidableEq, Repr

/-- Durations and instants are counted in nanoseconds, as `time.Duration` is. -/
def Hour : Nat := 60 * (60 * (1000 * (1000 * 1000)))

/-- What the process reads from its surroundings while it serves one request:
`time.Now()`, the string of `uuid.New()`, and whether the call to the relational
store or to Redis made by this request fails in transit. -/
structure Env where
  now : Nat
  uuid : String
  dbErr : Option String
  redisErr : Option String
deriving DecidableEq, Repr

/-! ## session/redis.go -/

structure Session where
  UserID : Int
  Username : String
  CreatedAt : Nat
deriving DecidableEq, Repr

/-- One Redis key: the stored string and its deadline (`none`: never expires). -/
structure Entry where
  data : String
  deadline : Option Nat
deriving DecidableEq, Repr

abbrev Keyspace := List (String × Entry)

/-- A row of table `users`. -/
structure User where
  id : Int
  username : String
  password_hash : String
deriving DecidableEq, Repr

/-- A row of table `posts`. -/
structure PostRow where
  id : Int
  user_id : Int
  content : String
  created_at : Nat
deriving DecidableEq, Repr

/-- The persistent state behind the process: both tables, the `SERIAL` counter of
`posts.id`, and the Redis keyspace. -/
structure World where
  users : List User
  posts : List PostRow
  postSeq : Nat
  redis : Keyspace
deriving DecidableEq, Repr

/-- A call that reached (or tried to reach) one of the two stores. -/
inductive StoreCall where
  | redisSet (key data : String) (expiration : Nat)
  | redisGet (key : String)
  | redisDel (key : String)
  | dbQueryUser (username : String)
  | dbInsertPost (user_id : Int) (content : String)
  | dbQueryPosts
  | dbPing
deriving DecidableEq, Repr

/-- Row of the `ListPosts` join; also the JSON shape of a post. -/
structure Post where
  ID : Int
  UserID : Int
  Username : String
  Content : String
  CreatedAt : Nat
deriving DecidableEq, Repr

/-- A JSON field value written by one of the handlers. -/
inductive JVal where
  | bool (b : Bool)
  | str (s : String)
  | int (n : Int)
  | posts (ps : List Post)
deriving DecidableEq, Repr

/-- What a handler writes to the body: a JSON object, fields in the order the
encoder emits them, or a line of plain text. -/
inductive Body where
  | json (fields : List (String × JVal))
  | text (line : String)
deriving DecidableEq, Repr

/-- The `http.ResponseWriter` as the handler leaves it: the status code fixed by
the first `WriteHeader` (or by the first write), the header map, and what was
written. -/
structure ResponseWriter where
  statusCode : Option Nat
  header : List (String × String)
  body : List Body
deriving DecidableEq, Repr

def ResponseWriter.fresh : ResponseWriter := ⟨none, [], []⟩

/-- The state a handler runs in. -/
structure St where
  world : World
  w : ResponseWriter
  calls : List StoreCall
deriving DecidableEq, Repr

/-! ### The Redis server, seen through `redis.Client` -/

namespace Client

def lookup (db : Keyspace) (key : String) : Option Entry :=
  (db.find? (fun kv => kv.1 == key)).map (fun kv => kv.2)

/-- An entry can be read strictly before its deadline. -/
def live (now : Nat) (e : Entry) : Bool :=
  match e.deadline with
  | none => true
  | some d => decide (now < d)

/-- Command `SET key data` with a time to live; a zero expiration stores the key
without a deadline. -/
def Set (env : Env) (key data : String) (expiration : Nat) (s : St) : Option Error × St :=
  let s := { s with calls := s.calls ++ [StoreCall.redisSet key data expiration] }
  match env.redisErr with
  | some e => (some (Error.msg e), s)
  | none =>
    let deadline := if expiration = 0 then none else some (env.now + expiration)
    let db := (key, Entry.mk data deadline) :: s.world.redis.filter (fun kv => kv.1 != key)
    (none, { s with world := { s.world with redis := db } })

/-- Command `GET key`: `redis.Nil` when the key is absent or past its deadline. -/
def Get (env : Env) (key : String) (s : St) : Except Error String × St :=
  let s := { s with calls := s.calls ++ [StoreCall.redisGet key] }
  match env.redisErr with
  | some e => (Except.error (Error.msg e), s)
  | none =>
    match lookup s.world.redis key with
    | none => (Except.error Error.Nil, s)
    | some e => if live env.now e then (Except.ok e.data, s) else (Except.error Error.Nil, s)

/-- Command `DEL key`: the reply is a count, so an absent key is no error. -/
def Del (env : Env) (key : String) (s : St) : Option Error × St :=
  let s := { s with calls := s.calls ++ [StoreCall.redisDel key] }
  match env.redisErr with
  | some e => (some (Error.msg e), s)
  | none =>
    (none, { s with world := { s.world with redis := s.world.redis.filter (fun kv => kv.1 != key) } })

end Client

/-- Body of `POST /login`. -/
structure LoginRequest where
  Username : String
  Password : String
deriving DecidableEq, Repr

/-- Body of `POST /post`. -/
structure CreatePostRequest where
  Content : String
deriving DecidableEq, Repr

/-- The library functions the handlers call. `Decode*` is
`json.NewDecoder(r.Body).Decode(&req)` at the two request types (`none`: an
error), `Marshal` and `Unmarshal` are `encoding/json` at type `Session`,
`CompareHashAndPassword hash password` is true when bcrypt returns no error, and
`MetricsText` is the page `promhttp.Handler()` serves. -/
structure Lib where
  DecodeLoginRequest : String → Option LoginRequest
  DecodeCreatePostRequest : String → Option CreatePostRequest
  Marshal : Session → Except Error String
  Unmarshal : String → Except Error Session
  CompareHashAndPassword : String → String → Bool
  MetricsText : String

/-- The key under which a session id is stored: `fmt.Sprintf("session:%s", sessionID)`. -/
def sessionKey (sessionID : String) : String := "session:" ++ sessionID

namespace RedisStore

def Set (lib : Lib) (env : Env) (sessionID : String) (session : Session) (expiration : Nat)
    (s : St) : Option Error × St :=
  match lib.Marshal session with
  | Except.error err => (some err, s)
  | Except.ok data =>
    let key := sessionKey sessionID
    Client.Set env key data expiration s

def Get (lib : Lib) (env : Env) (sessionID : String) (s : St) : Except Error Session × St :=
  let key := sessionKey sessionID
  match Client.Get env key s with
  | (Except.error Error.Nil, s) => (Except.error (Error.msg "session not found"), s)
  | (Except.error err, s) => (Except.error err, s)
  | (Except.ok data, s) =>
    match lib.Unmarshal data with
    | Except.error err => (Except.error err, s)
    | Except.ok session => (Except.ok session, s)

def Delete (env : Env) (sessionID : String) (s : St) : Option Error × St :=
  let key := sessionKey sessionID
  Client.Del env key s

end RedisStore

/-! ## net/http and context, as far as the handlers use them -/

/-- A value stored in a request context. -/
inductive Any where
  | int (n : Int)
  | str (s : String)
deriving DecidableEq, Repr

/-- A `context.Context`: the pairs added by `WithValue`, the latest first. -/
abbrev Context := List (String × Any)

def Context.WithValue (parent : Context) (key : String) (val : Any) : Context :=
  (key, val) :: parent

def Context.Value (ctx : Context) (key : String) : Option Any :=
  (ctx.find? (fun kv => kv.1 == key)).map (fun kv => kv.2)

/-- An `*http.Request`: `Header` holds one pair per header line, the name in the
canonical form under which `net/http` files it. -/
structure Request where
  Method : String
  Path : String
  Header : List (String × String)
  Body : String
  ctx : Context
deriving DecidableEq, Repr

/-- `r.Header.Get(key)`: the first value of the header, the empty string if none. -/
def Request.HeaderGet (r : Request) (key : String) : String :=
  match r.Header.find? (fun kv => kv.1 == key) with
  | some kv => kv.2
  | none => ""

def Request.WithContext (r : Request) (ctx : Context) : Request :=
  { r with ctx := ctx }

namespace ResponseWriter

/-- `w.WriteHeader(code)`: only the first call fixes the status. -/
def WriteHeader (w : ResponseWriter) (code : Nat) : ResponseWriter :=
  match w.statusCode with
  | some _ => w
  | none => { w with statusCode := some code }

/-- `w.Header().Set(key, value)`. -/
def HeaderSet (w : ResponseWriter) (key value : String) : ResponseWriter :=
  { w with header := (key, value) :: w.header.filter (fun kv => kv.1 != key) }

/-- `w.Header().Del(key)`. -/
def HeaderDel (w : ResponseWriter) (key : String) : ResponseWriter :=
  { w with header := w.header.filter (fun kv => kv.1 != key) }

/-- `w.Write`: a first write without a status sends 200. -/
def Write (w : ResponseWriter) (b : Body) : ResponseWriter :=
  let w := w.WriteHeader 200
  { w with body := w.body ++ [b] }

/-- `json.NewEncoder(w).Encode(v)` for an object `v`. -/
def Encode (w : ResponseWriter) (fields : List (String × JVal)) : ResponseWriter :=
  w.Write (Body.json fields)

end ResponseWriter

/-- `http.Error(w, error, code)`. -/
def httpError (w : ResponseWriter) (error : String) (code : Nat) : ResponseWriter :=
  let w := w.HeaderDel "Content-Length"
  let w := w.HeaderSet "Content-Type" "text/plain; charset=utf-8"
  let w := w.HeaderSet "X-Content-Type-Options" "nosniff"
  let w := w.WriteHeader code
  w.Write (Body.text (error ++ "\n"))

/-- An `http.Handler`; `Except.error` is a panic that unwinds the handler. -/
abbrev Handler := Env → Request → St → Except String St

/-- `http.HandlerFunc` at a function that cannot panic. -/
def HandlerFunc (f : Env → Request → St → St) : Handler :=
  fun env r s => Except.ok (f env r s)

/-! ## The relational store, seen through `database/sql` -/

namespace DB

/-- `SELECT id, password_hash FROM users WHERE username = $1`, scanned as one row. -/
def QueryUser (env : Env) (username : String) (s : St) : Except Error (Int × String) × St :=
  let s := { s with calls := s.calls ++ [StoreCall.dbQueryUser username] }
  match env.dbErr with
  | some e => (Except.error (Error.msg e), s)
  | none =>
    match s.world.users.find? (fun u => u.username == username) with
    | none => (Except.error Error.ErrNoRows, s)
    | some u => (Except.ok (u.id, u.password_hash), s)

/-- `INSERT INTO posts (user_id, content, created_at) VALUES ($1, $2, $3)
RETURNING id`. The sequence of `posts.id` advances before the foreign key of
`user_id` is checked. -/
def InsertPost (env : Env) (user_id : Int) (content : String) (created_at : Nat) (s : St) :
    Except Error Int × St :=
  let s := { s with calls := s.calls ++ [StoreCall.dbInsertPost user_id content] }
  match env.dbErr with
  | some e => (Except.error (Error.msg e), s)
  | none =>
    let id : Int := s.world.postSeq + 1
    if s.world.users.any (fun u => u.id == user_id) then
      let row := PostRow.mk id user_id content created_at
      (Except.ok id,
        { s with world := { s.world with posts := s.world.posts ++ [row], postSeq := s.world.postSeq + 1 } })
    else
      (Except.error (Error.msg "violates foreign key constraint"),
        { s with world := { s.world with postSeq := s.world.postSeq + 1 } })

/-- The join of `ListPosts`: newest first, at most 100 rows. SQL leaves the order
of rows with equal `created_at` open; here they keep the order of insertion. -/
def QueryPosts (env : Env) (s : St) : Except Error (List Post) × St :=
  let s := { s with calls := s.calls ++ [StoreCall.dbQueryPosts] }
  match env.dbErr with
  | some e => (Except.error (Error.msg e), s)
  | none =>
    let joined := s.world.posts.filterMap (fun p =>
      (s.world.users.find? (fun u => u.id == p.user_id)).map
        (fun u => Post.mk p.id p.user_id u.username p.content p.created_at))
    let sorted := joined.mergeSort (fun a b => decide (b.CreatedAt ≤ a.CreatedAt))
    (Except.ok (sorted.take 100), s)

/-- `db.Ping()`. -/
def Ping (env : Env) (s : St) : Option Error × St :=
  let s := { s with calls := s.calls ++ [StoreCall.dbPing] }
  match env.dbErr with
  | some e => (some (Error.msg e), s)
  | none => (none, s)

end DB

/-! ## handlers/auth.go -/

/-- The JSON encoding of a `LoginResponse`; `session_id` is `omitempty`. -/
def LoginResponse (Success : Bool) (Message : String) (SessionID : String) :
    List (String × JVal) :=
  [("success", JVal.bool Success), ("message", JVal.str Message)] ++
    (if SessionID = "" then [] else [("session_id", JVal.str SessionID)])

namespace AuthHandler

def Login (lib : Lib) (env : Env) (r : Request) (s : St) : St :=
  if r.Method ≠ "POST" then
    { s with w := httpError s.w "Method not allowed" 405 }
  else
    match lib.DecodeLoginRequest r.Body with
    | none =>
      { s with w := (s.w.WriteHeader 400).Encode (LoginResponse false "Invalid request" "") }
    | some req =>
      -- Get user from database
      match DB.QueryUser env req.Username s with
      | (Except.error Error.ErrNoRows, s) =>
        { s with w := (s.w.WriteHeader 401).Encode (LoginResponse false "Invalid credentials" "") }
      | (Except.error _, s) =>
        { s with w := (s.w.WriteHeader 500).Encode (LoginResponse false "Server error" "") }
      | (Except.ok (userID, passwordHash), s) =>
        -- Verify password
        if lib.CompareHashAndPassword passwordHash req.Password = false then
          { s with w := (s.w.WriteHeader 401).Encode (LoginResponse false "Invalid credentials" "") }
        else
          -- Create session
          let sessionID := env.uuid
          let sess := Session.mk userID req.Username env.now
          match RedisStore.Set lib env sessionID sess (24 * Hour) s with
          | (some _, s) =>
            { s with w := ((s.w.WriteHeader 500).Encode
                (LoginResponse false "Failed to create session" "")) }
          | (none, s) =>
            { s with w := ((s.w.HeaderSet "Content-Type" "application/json").Encode
                (LoginResponse true "Login successful" sessionID)) }

def Logout (env : Env) (r : Request) (s : St) : St :=
  if r.Method ≠ "POST" then
    { s with w := httpError s.w "Method not allowed" 405 }
  else
    let sessionID := r.HeaderGet "X-Session-ID"
    if sessionID = "" then
      { s with w := ((s.w.WriteHeader 400).Encode
          [("message", JVal.str "No session ID provided"), ("success", JVal.bool false)]) }
    else
      match RedisStore.Delete env sessionID s with
      | (some _, s) =>
        { s with w := ((s.w.WriteHeader 500).Encode
            [("message", JVal.str "Failed to logout"), ("success", JVal.bool false)]) }
      | (none, s) =>
        { s with w := ((s.w.HeaderSet "Content-Type" "application/json").Encode
            [("message", JVal.str "Logout successful"), ("success", JVal.bool true)]) }

end AuthHandler

/-! ## middleware/auth.go -/

def AuthMiddleware (lib : Lib) (next : Handler) : Handler :=
  fun env r s =>
    let sessionID := r.HeaderGet "X-Session-ID"
    if sessionID = "" then
      Except.ok { s with w := (((s.w.WriteHeader 401).HeaderSet "Content-Type" "application/json").Encode
        [("message", JVal.str "No session ID provided"), ("success", JVal.bool false)]) }
    else
      match RedisStore.Get lib env sessionID s with
      | (Except.error _, s) =>
        Except.ok { s with w := (((s.w.WriteHeader 401).HeaderSet "Content-Type" "application/json").Encode
          [("message", JVal.str "Invalid or expired session"), ("success", JVal.bool false)]) }
      | (Except.ok sess, s) =>
        let ctx := Context.WithValue r.ctx "user_id" (Any.int sess.UserID)
        let ctx := Context.WithValue ctx "username" (Any.str sess.Username)
        next env (r.WithContext ctx) s

/-! ## handlers/post.go -/

namespace PostHandler

def CreatePost (lib : Lib) : Handler :=
  fun env r s =>
    if r.Method ≠ "POST" then
      Except.ok { s with w := httpError s.w "Method not allowed" 405 }
    else
      match r.ctx.Value "user_id" with
      | some (Any.int userID) =>
        match lib.DecodeCreatePostRequest r.Body with
        | none =>
          Except.ok { s with w := ((s.w.WriteHeader 400).Encode
            [("message", JVal.str "Invalid request"), ("success", JVal.bool false)]) }
        | some req =>
          if req.Content = "" then
            Except.ok { s with w := ((s.w.WriteHeader 400).Encode
              [("message", JVal.str "Content cannot be empty"), ("success", JVal.bool false)]) }
          else
            match DB.InsertPost env userID req.Content env.now s with
            | (Except.error _, s) =>
              Except.ok { s with w := ((s.w.WriteHeader 500).Encode
                [("message", JVal.str "Failed to create post"), ("success", JVal.bool false)]) }
            | (Except.ok postID, s) =>
              Except.ok { s with w := ((s.w.HeaderSet "Content-Type" "application/json").Encode
                [("message", JVal.str "Post created"), ("post_id", JVal.int postID),
                  ("success", JVal.bool true)]) }
      | _ => Except.error "interface conversion: interface is not int"

def ListPosts (env : Env) (r : Request) (s : St) : St :=
  if r.Method ≠ "GET" then
    { s with w := httpError s.w "Method not allowed" 405 }
  else
    match DB.QueryPosts env s with
    | (Except.error _, s) =>
      { s with w := ((s.w.WriteHeader 500).Encode
          [("message", JVal.str "Failed to fetch posts"), ("success", JVal.bool false)]) }
    | (Except.ok posts, s) =>
      { s with w := ((s.w.HeaderSet "Content-Type" "application/json").Encode
          [("posts", JVal.posts posts), ("success", JVal.bool true)]) }

end PostHandler

def HealthHandler (_env : Env) (_r : Request) (s : St) : St :=
  { s with w := ((s.w.HeaderSet "Content-Type" "application/json").Encode
      [("status", JVal.str "healthy")]) }

def ReadyHandler (env : Env) (_r : Request) (s : St) : St :=
  match DB.Ping env s with
  | (some _, s) =>
    { s with w := ((s.w.WriteHeader 503).Encode
        [("reason", JVal.str "database unavailable"), ("status", JVal.str "not ready")]) }
  | (none, s) =>
    { s with w := ((s.w.HeaderSet "Content-Type" "application/json").Encode
        [("status", JVal.str "ready")]) }

/-! ## main.go: the route table -/

/-- The `ServeMux` built in `main`: each pattern matches exactly its path.
`MetricsMiddleware` around it only observes the status code for the Prometheus
registry, which `World` does not hold. -/
def mux (lib : Lib) : Handler :=
  fun env r s =>
    if r.Path = "/health" then HandlerFunc HealthHandler env r s
    else if r.Path = "/ready" then HandlerFunc ReadyHandler env r s
    else if r.Path = "/metrics" then Except.ok { s with w := s.w.Write (Body.text lib.MetricsText) }
    else if r.Path = "/login" then HandlerFunc (AuthHandler.Login lib) env r s
    else if r.Path = "/logout" then HandlerFunc AuthHandler.Logout env r s
    else if r.Path = "/post" then AuthMiddleware lib (PostHandler.CreatePost lib) env r s
    else if r.Path = "/posts" then AuthMiddleware lib (HandlerFunc PostHandler.ListPosts) env r s
    else Except.ok { s with w := httpError s.w "404 page not found" 404 }

/-- One request served against a world: the world it leaves behind. No route
panics (`mux_total`), so the second case is never taken. -/
def serve (lib : Lib) (env : Env) (r : Request) (world : World) : World :=
  match mux lib env r ⟨world, ResponseWriter.fresh, []⟩ with
  | Except.ok s => s.world
  | Except.error _ => world

/-- A run of requests, each with its own surroundings, oldest first. -/
def serveAll (lib : Lib) : List (Env × Request) → World → World
  | [], world => world
  | (env, r) :: rest, world => serveAll lib rest (serve lib env r world)

/-! ## Vocabulary of the statements -/

/-- The request is a login for which the UUID generator yields the token `T`. -/
def issues (T : String) (q : Env × Request) : Prop :=
  q.2.Path = "/login" ∧ q.1.uuid = T

/-- The request is a logout that names the token `T`. -/
def revokes (T : String) (q : Env × Request) : Prop :=
  q.2.Path = "/logout" ∧ q.2.HeaderGet "X-Session-ID" = T

/-! ## A small instance to run the handlers on -/

/-- Stand-ins for the libraries: three request bodies are known to the login
decoder, a post body is its own content unless it reads `malformed`, a session
is serialised as `id|username`, and the hash of a password is the password in
brackets. -/
def demoLib : Lib where
  DecodeLoginRequest := fun body =>
    if body = "good" then some ⟨"testuser", "password123"⟩
    else if body = "wrong" then some ⟨"testuser", "letmein"⟩
    else if body = "nobody" then some ⟨"mallory", "password123"⟩
    else none
  DecodeCreatePostRequest := fun body =>
    if body = "malformed" then none else some ⟨body⟩
  Marshal := fun s => Except.ok (toString s.UserID ++ "|" ++ s.Username)
  Unmarshal := fun data =>
    if data = "1|testuser" then Except.ok ⟨1, "testuser", 0⟩
    else Except.error (Error.msg "invalid character")
  CompareHashAndPassword := fun hash password => decide (hash = "[" ++ password ++ "]")
  MetricsText := ""

def demoUser : User := ⟨1, "testuser", "[password123]"⟩

/-- The tables as `createTables` seeds them, and an empty keyspace. -/
def demoWorld : World := ⟨[demoUser], [], 0, []⟩

def demoToken : String := "0b0e7a52-5d1c-4f6e-9a3b-2f1d6c8e4a10"

def otherToken : String := "7c9e6679-7425-40de-944b-e07fc1f90ae7"

/-- Surroundings at instant `now` in which both stores answer. -/
def demoEnv (now : Nat) : Env := ⟨now, demoToken, none, none⟩

/-- Surroundings at instant `now` in which Redis cannot be reached. -/
def redisDownEnv (now : Nat) : Env := ⟨now, demoToken, none, some "dial tcp: connection refused"⟩

def loginRequest (body : String) : Request := ⟨"POST", "/login", [], body, []⟩

def logoutRequest (T : String) : Request := ⟨"POST", "/logout", [("X-Session-ID", T)], "", []⟩

def postRequest (T : String) (content : String) : Request :=
  ⟨"POST", "/post", [("X-Session-ID", T)], content, []⟩

def listRequest (T : String) : Request := ⟨"GET", "/posts", [("X-Session-ID", T)], "", []⟩

/-- The world after `testuser` has logged in at instant 1000 with `demoToken`. -/
def loggedInWorld : World :=
  ⟨[demoUser], [], 0, [(sessionKey demoToken, ⟨"1|testuser", some (1000 + 24 * Hour)⟩)]⟩

/-! ## Lemmas on the keyspace -/

theorem sessionKey_inj {a b : String} (h : sessionKey a = sessionKey b) : a = b := by
  unfold sessionKey at h
  have h2 := congrArg String.data h
  simp only [String.data_append, List.append_cancel_left_eq] at h2
  exact String.ext h2

namespace Client

theorem lookup_nil (k : String) : lookup [] k = none := rfl

theorem lookup_cons (kv : String × Entry) (db : Keyspace) (k : String) :
    lookup (kv :: db) k = if kv.1 = k then some kv.2 else lookup db k := by
  unfold lookup
  by_cases h : kv.1 = k <;> simp [List.find?_cons, h]

theorem lookup_filter_ne (db : Keyspace) {k k2 : String} (h : k2 ≠ k) :
    lookup (db.filter (fun kv => kv.1 != k)) k2 = lookup db k2 := by
  induction db with
  | nil => rfl
  | cons kv db ih =>
    by_cases hk : kv.1 = k
    · have h2 : ¬ k = k2 := fun e => h e.symm
      simp [List.filter_cons, hk, lookup_cons, h2, ih]
    · simp [List.filter_cons, hk, lookup_cons, ih]

theorem lookup_filter_self (db : Keyspace) (k : String) :
    lookup (db.filter (fun kv => kv.1 != k)) k = none := by
  induction db with
  | nil => rfl
  | cons kv db ih =>
    by_cases hk : kv.1 = k
    · simp [List.filter_cons, hk, ih]
    · simp [List.filter_cons, hk, lookup_cons, ih]

theorem lookup_filter_none (db : Keyspace) (k : String) {k2 : String}
    (h : lookup db k2 = none) : lookup (db.filter (fun kv => kv.1 != k)) k2 = none := by
  by_cases hk : k2 = k
  · rw [hk]; exact lookup_filter_self db k
  · rw [lookup_filter_ne db hk]; exact h

end Client

namespace RedisStore

theorem Get_snd (lib : Lib) (env : Env) (sid : String) (s : St) :
    (Get lib env sid s).2 = { s with calls := s.calls ++ [StoreCall.redisGet (sessionKey sid)] } := by
  simp only [Get, Client.Get]
  cases env.redisErr with
  | some e => rfl
  | none =>
    cases Client.lookup s.world.redis (sessionKey sid) with
    | none => rfl
    | some e =>
      cases hl : Client.live env.now e with
      | false => simp [hl]
      | true =>
        cases hu : lib.Unmarshal e.data <;> simp [hl, hu]

theorem Get_fst_congr (lib : Lib) (env : Env) (sid : String) (s t : St)
    (h : Client.lookup s.world.redis (sessionKey sid) = Client.lookup t.world.redis (sessionKey sid)) :
    (Get lib env sid s).1 = (Get lib env sid t).1 := by
  simp only [Get, Client.Get]
  cases env.redisErr with
  | some e => rfl
  | none =>
    simp only [← h]
    cases Client.lookup s.world.redis (sessionKey sid) with
    | none => rfl
    | some e =>
      cases hl : Client.live env.now e with
      | false => simp [hl]
      | true =>
        cases hu : lib.Unmarshal e.data <;> simp [hl, hu]

theorem Get_ok (lib : Lib) (env : Env) (sid : String) (s : St) (e : Entry) (sess : Session)
    (hup : env.redisErr = none)
    (hfound : Client.lookup s.world.redis (sessionKey sid) = some e)
    (hlive : Client.live env.now e = true)
    (hdec : lib.Unmarshal e.data = Except.ok sess) :
    (Get lib env sid s).1 = Except.ok sess := by
  simp [Get, Client.Get, hup, hfound, hlive, hdec]

theorem Get_error_of_dead (lib : Lib) (env : Env) (sid : String) (s : St)
    (hdead : ∀ e, Client.lookup s.world.redis (sessionKey sid) = some e →
      Client.live env.now e = false) :
    ∃ err, (Get lib env sid s).1 = Except.error err := by
  simp only [Get, Client.Get]
  cases env.redisErr with
  | some e => exact ⟨_, rfl⟩
  | none =>
    cases hf : Client.lookup s.world.redis (sessionKey sid) with
    | none => exact ⟨_, rfl⟩
    | some e =>
      have hl := hdead e hf
      simp [hl]

end RedisStore

/-! ### The middleware, case by case -/

theorem AuthMiddleware_of_empty (lib : Lib) (next : Handler) (env : Env) (r : Request) (s : St)
    (h : r.HeaderGet "X-Session-ID" = "") :
    AuthMiddleware lib next env r s =
      Except.ok { s with w := (((s.w.WriteHeader 401).HeaderSet "Content-Type" "application/json").Encode
        [("message", JVal.str "No session ID provided"), ("success", JVal.bool false)]) } := by
  simp [AuthMiddleware, h]

theorem AuthMiddleware_of_error (lib : Lib) (next : Handler) (env : Env) (r : Request) (s : St)
    (err : Error) (h : r.HeaderGet "X-Session-ID" ≠ "")
    (hg : (RedisStore.Get lib env (r.HeaderGet "X-Session-ID") s).1 = Except.error err) :
    AuthMiddleware lib next env r s =
      Except.ok { world := s.world,
                  w := ((s.w.WriteHeader 401).HeaderSet "Content-Type" "application/json").Encode
                    [("message", JVal.str "Invalid or expired session"), ("success", JVal.bool false)],
                  calls := s.calls ++ [StoreCall.redisGet (sessionKey (r.HeaderGet "X-Session-ID"))] } := by
  have hp : RedisStore.Get lib env (r.HeaderGet "X-Session-ID") s =
      (Except.error err, { s with calls := s.calls ++
        [StoreCall.redisGet (sessionKey (r.HeaderGet "X-Session-ID"))] }) :=
    Prod.ext hg (RedisStore.Get_snd lib env _ s)
  simp [AuthMiddleware, h, hp]

theorem AuthMiddleware_of_ok (lib : Lib) (next : Handler) (env : Env) (r : Request) (s : St)
    (sess : Session) (h : r.HeaderGet "X-Session-ID" ≠ "")
    (hg : (RedisStore.Get lib env (r.HeaderGet "X-Session-ID") s).1 = Except.ok sess) :
    AuthMiddleware lib next env r s =
      next env
        (r.WithContext
          ((r.ctx.WithValue "user_id" (Any.int sess.UserID)).WithValue "username"
            (Any.str sess.Username)))
        { s with calls := s.calls ++ [StoreCall.redisGet (sessionKey (r.HeaderGet "X-Session-ID"))] } := by
  have hp : RedisStore.Get lib env (r.HeaderGet "X-Session-ID") s =
      (Except.ok sess, { s with calls := s.calls ++
        [StoreCall.redisGet (sessionKey (r.HeaderGet "X-Session-ID"))] }) :=
    Prod.ext hg (RedisStore.Get_snd lib env _ s)
  simp [AuthMiddleware, h, hp]

theorem AuthMiddleware_keeps_redis (lib : Lib) (next : Handler)
    (hnext : ∀ env r s t, next env r s = Except.ok t → t.world.redis = s.world.redis)
    (env : Env) (r : Request) (s t : St) (h : AuthMiddleware lib next env r s = Except.ok t) :
    t.world.redis = s.world.redis := by
  by_cases he : r.HeaderGet "X-Session-ID" = ""
  · rw [AuthMiddleware_of_empty lib next env r s he] at h
    cases h; rfl
  · cases hg : (RedisStore.Get lib env (r.HeaderGet "X-Session-ID") s).1 with
    | error err =>
      rw [AuthMiddleware_of_error lib next env r s err he hg] at h
      cases h; rfl
    | ok sess =>
      rw [AuthMiddleware_of_ok lib next env r s sess he hg] at h
      have hw := hnext _ _ _ _ h
      exact hw

/-! ### What each handler does to the keyspace -/

theorem Login_lookup (lib : Lib) (env : Env) (r : Request) (s : St) (k : String)
    (hk : k ≠ sessionKey env.uuid) :
    Client.lookup (AuthHandler.Login lib env r s).world.redis k = Client.lookup s.world.redis k := by
  have hk2 : ¬ sessionKey env.uuid = k := fun e => hk e.symm
  by_cases hm : r.Method = "POST"
  · cases hd : lib.DecodeLoginRequest r.Body with
    | none => simp [AuthHandler.Login, hm, hd]
    | some req =>
      cases hdb : env.dbErr with
      | some e => simp [AuthHandler.Login, DB.QueryUser, hm, hd, hdb]
      | none =>
        cases hf : s.world.users.find? (fun u => u.username == req.Username) with
        | none => simp [AuthHandler.Login, DB.QueryUser, hm, hd, hdb, hf]
        | some u =>
          cases hc : lib.CompareHashAndPassword u.password_hash req.Password with
          | false => simp [AuthHandler.Login, DB.QueryUser, hm, hd, hdb, hf, hc]
          | true =>
            cases hj : lib.Marshal ⟨u.id, req.Username, env.now⟩ with
            | error e =>
              simp [AuthHandler.Login, DB.QueryUser, RedisStore.Set, hm, hd, hdb, hf, hc, hj]
            | ok data =>
              cases hr : env.redisErr with
              | some e =>
                simp [AuthHandler.Login, DB.QueryUser, RedisStore.Set, Client.Set, hm, hd, hdb,
                  hf, hc, hj, hr]
              | none =>
                simp [AuthHandler.Login, DB.QueryUser, RedisStore.Set, Client.Set, hm, hd, hdb,
                  hf, hc, hj, hr, Client.lookup_cons, hk2, Client.lookup_filter_ne _ hk]
  · simp [AuthHandler.Login, hm]

theorem Logout_lookup (env : Env) (r : Request) (s : St) (k : String)
    (hk : k ≠ sessionKey (r.HeaderGet "X-Session-ID")) :
    Client.lookup (AuthHandler.Logout env r s).world.redis k = Client.lookup s.world.redis k := by
  by_cases hm : r.Method = "POST"
  · by_cases hs : r.HeaderGet "X-Session-ID" = ""
    · simp [AuthHandler.Logout, hm, hs]
    · cases hr : env.redisErr with
      | some e => simp [AuthHandler.Logout, RedisStore.Delete, Client.Del, hm, hs, hr]
      | none =>
        simp [AuthHandler.Logout, RedisStore.Delete, Client.Del, hm, hs, hr,
          Client.lookup_filter_ne _ hk]
  · simp [AuthHandler.Logout, hm]

theorem Logout_lookup_none (env : Env) (r : Request) (s : St) (k : String)
    (h : Client.lookup s.world.redis k = none) :
    Client.lookup (AuthHandler.Logout env r s).world.redis k = none := by
  by_cases hm : r.Method = "POST"
  · by_cases hs : r.HeaderGet "X-Session-ID" = ""
    · simp [AuthHandler.Logout, hm, hs, h]
    · cases hr : env.redisErr with
      | some e => simp [AuthHandler.Logout, RedisStore.Delete, Client.Del, hm, hs, hr, h]
      | none =>
        simp [AuthHandler.Logout, RedisStore.Delete, Client.Del, hm, hs, hr,
          Client.lookup_filter_none _ _ h]
  · simp [AuthHandler.Logout, hm, h]

theorem CreatePost_keeps_redis (lib : Lib) (env : Env) (r : Request) (s t : St)
    (h : PostHandler.CreatePost lib env r s = Except.ok t) : t.world.redis = s.world.redis := by
  unfold PostHandler.CreatePost at h
  by_cases hm : r.Method = "POST"
  · cases hv : r.ctx.Value "user_id" with
    | none => simp [hm, hv] at h
    | some v =>
      cases v with
      | str x => simp [hm, hv] at h
      | int userID =>
        cases hd : lib.DecodeCreatePostRequest r.Body with
        | none => simp [hm, hv, hd] at h; rw [← h]
        | some req =>
          by_cases hc : req.Content = ""
          · simp [hm, hv, hd, hc] at h; rw [← h]
          · cases hdb : env.dbErr with
            | some e => simp [hm, hv, hd, hc, DB.InsertPost, hdb] at h; rw [← h]
            | none =>
              by_cases hfk : s.world.users.any (fun u => u.id == userID) = true
              · simp [hm, hv, hd, hc, DB.InsertPost, hdb, hfk] at h; rw [← h]
              · simp [hm, hv, hd, hc, DB.InsertPost, hdb, hfk] at h; rw [← h]
  · simp [hm] at h; rw [← h]

theorem ListPosts_world (env : Env) (r : Request) (s : St) :
    (PostHandler.ListPosts env r s).world = s.world := by
  by_cases hm : r.Method = "GET"
  · cases hdb : env.dbErr with
    | some e => simp [PostHandler.ListPosts, DB.QueryPosts, hm, hdb]
    | none => simp [PostHandler.ListPosts, DB.QueryPosts, hm, hdb]
  · simp [PostHandler.ListPosts, hm]

/-! ### The identity handed to the wrapped handler -/

theorem Value_user_id (ctx : Context) (a : Int) (b : String) :
    Context.Value ((ctx.WithValue "user_id" (Any.int a)).WithValue "username" (Any.str b))
      "user_id" = some (Any.int a) := by
  simp [Context.Value, Context.WithValue, List.find?_cons]

theorem Value_username (ctx : Context) (a : Int) (b : String) :
    Context.Value ((ctx.WithValue "user_id" (Any.int a)).WithValue "username" (Any.str b))
      "username" = some (Any.str b) := by
  simp [Context.Value, Context.WithValue, List.find?_cons]

theorem CreatePost_total_of_ctx (lib : Lib) (env : Env) (r : Request) (s : St) (n : Int)
    (hv : r.ctx.Value "user_id" = some (Any.int n)) :
    ∃ t, PostHandler.CreatePost lib env r s = Except.ok t := by
  unfold PostHandler.CreatePost
  by_cases hm : r.Method = "POST"
  · cases hd : lib.DecodeCreatePostRequest r.Body with
    | none => simp [hm, hv, hd]
    | some req =>
      by_cases hc : req.Content = ""
      · simp [hm, hv, hd, hc]
      · cases hdb : env.dbErr with
        | some e => simp [hm, hv, hd, hc, DB.InsertPost, hdb]
        | none =>
          by_cases hfk : s.world.users.any (fun u => u.id == n) = true
          · simp [hm, hv, hd, hc, DB.InsertPost, hdb, hfk]
          · simp [hm, hv, hd, hc, DB.InsertPost, hdb, hfk]
  · simp [hm]

/-! ### The route table and runs of requests -/

theorem mux_post_total (lib : Lib) (env : Env) (r : Request) (s : St) :
    ∃ t, AuthMiddleware lib (PostHandler.CreatePost lib) env r s = Except.ok t := by
  by_cases he : r.HeaderGet "X-Session-ID" = ""
  · exact ⟨_, AuthMiddleware_of_empty lib _ env r s he⟩
  · cases hg : (RedisStore.Get lib env (r.HeaderGet "X-Session-ID") s).1 with
    | error err => exact ⟨_, AuthMiddleware_of_error lib _ env r s err he hg⟩
    | ok sess =>
      rw [AuthMiddleware_of_ok lib _ env r s sess he hg]
      exact CreatePost_total_of_ctx lib env _ _ sess.UserID (Value_user_id _ _ _)

theorem mux_total (lib : Lib) (env : Env) (r : Request) (s : St) :
    ∃ t, mux lib env r s = Except.ok t := by
  by_cases h6 : r.Path = "/post"
  · have hp : mux lib env r s = AuthMiddleware lib (PostHandler.CreatePost lib) env r s := by
      simp [mux, h6]
    rw [hp]
    exact mux_post_total lib env r s
  by_cases h7 : r.Path = "/posts"
  · have hp : mux lib env r s =
        AuthMiddleware lib (HandlerFunc PostHandler.ListPosts) env r s := by
      simp [mux, h7]
    rw [hp]
    by_cases he : r.HeaderGet "X-Session-ID" = ""
    · exact ⟨_, AuthMiddleware_of_empty lib _ env r s he⟩
    · cases hg : (RedisStore.Get lib env (r.HeaderGet "X-Session-ID") s).1 with
      | error err => exact ⟨_, AuthMiddleware_of_error lib _ env r s err he hg⟩
      | ok sess =>
        rw [AuthMiddleware_of_ok lib _ env r s sess he hg]
        exact ⟨_, rfl⟩
  unfold mux
  by_cases h1 : r.Path = "/health"
  · simp [h1, HandlerFunc]
  by_cases h2 : r.Path = "/ready"
  · simp [h1, h2, HandlerFunc]
  by_cases h3 : r.Path = "/metrics"
  · simp [h1, h2, h3]
  by_cases h4 : r.Path = "/login"
  · simp [h1, h2, h3, h4, HandlerFunc]
  by_cases h5 : r.Path = "/logout"
  · simp [h1, h2, h3, h4, h5, HandlerFunc]
  simp [h1, h2, h3, h4, h5, h6, h7]

theorem serve_redis_post (lib : Lib) (env : Env) (r : Request) (world : World)
    (h : r.Path = "/post") : (serve lib env r world).redis = world.redis := by
  have hp : mux lib env r ⟨world, ResponseWriter.fresh, []⟩ =
      AuthMiddleware lib (PostHandler.CreatePost lib) env r ⟨world, ResponseWriter.fresh, []⟩ := by
    simp [mux, h]
  unfold serve
  rw [hp]
  cases hc : AuthMiddleware lib (PostHandler.CreatePost lib) env r ⟨world, ResponseWriter.fresh, []⟩ with
  | error e => rfl
  | ok t =>
    exact AuthMiddleware_keeps_redis lib _ (CreatePost_keeps_redis lib) env r _ t hc

theorem serve_redis_posts (lib : Lib) (env : Env) (r : Request) (world : World)
    (h : r.Path = "/posts") : (serve lib env r world).redis = world.redis := by
  have hp : mux lib env r ⟨world, ResponseWriter.fresh, []⟩ =
      AuthMiddleware lib (HandlerFunc PostHandler.ListPosts) env r
        ⟨world, ResponseWriter.fresh, []⟩ := by
    simp [mux, h]
  unfold serve
  rw [hp]
  cases hc : AuthMiddleware lib (HandlerFunc PostHandler.ListPosts) env r
      ⟨world, ResponseWriter.fresh, []⟩ with
  | error e => rfl
  | ok t =>
    refine AuthMiddleware_keeps_redis lib _ ?_ env r _ t hc
    intro env r s t ht
    simp only [HandlerFunc, Except.ok.injEq] at ht
    rw [← ht, ListPosts_world]

theorem serve_lookup (lib : Lib) (env : Env) (r : Request) (world : World) (T : String)
    (hi : ¬ issues T (env, r)) (hr : ¬ revokes T (env, r)) :
    Client.lookup (serve lib env r world).redis (sessionKey T) =
      Client.lookup world.redis (sessionKey T) := by
  by_cases h6 : r.Path = "/post"
  · rw [serve_redis_post lib env r world h6]
  by_cases h7 : r.Path = "/posts"
  · rw [serve_redis_posts lib env r world h7]
  unfold serve mux
  by_cases h1 : r.Path = "/health"
  · simp [h1, HandlerFunc, HealthHandler]
  by_cases h2 : r.Path = "/ready"
  · simp [h1, h2, HandlerFunc, ReadyHandler, DB.Ping]
    cases env.dbErr <;> rfl
  by_cases h3 : r.Path = "/metrics"
  · simp [h1, h2, h3]
  by_cases h4 : r.Path = "/login"
  · have hu : sessionKey T ≠ sessionKey env.uuid := fun e => hi ⟨h4, (sessionKey_inj e).symm⟩
    simp [h1, h2, h3, h4, HandlerFunc, Login_lookup _ _ _ _ _ hu]
  by_cases h5 : r.Path = "/logout"
  · have hu : sessionKey T ≠ sessionKey (r.HeaderGet "X-Session-ID") :=
      fun e => hr ⟨h5, (sessionKey_inj e).symm⟩
    simp [h1, h2, h3, h4, h5, HandlerFunc, Logout_lookup _ _ _ _ hu]
  simp [h1, h2, h3, h4, h5, h6, h7]

theorem serve_lookup_none (lib : Lib) (env : Env) (r : Request) (world : World) (T : String)
    (hi : ¬ issues T (env, r))
    (h : Client.lookup world.redis (sessionKey T) = none) :
    Client.lookup (serve lib env r world).redis (sessionKey T) = none := by
  by_cases hr : revokes T (env, r)
  · have hpath : r.Path = "/logout" := hr.1
    have hp : serve lib env r world =
        (AuthHandler.Logout env r ⟨world, ResponseWriter.fresh, []⟩).world := by
      simp [serve, mux, hpath, HandlerFunc]
    rw [hp]
    exact Logout_lookup_none env r _ _ h
  · rw [serve_lookup lib env r world T hi hr]; exact h

theorem serveAll_lookup (lib : Lib) (T : String) (reqs : List (Env × Request)) (world : World)
    (h : ∀ q ∈ reqs, ¬ issues T q ∧ ¬ revokes T q) :
    Client.lookup (serveAll lib reqs world).redis (sessionKey T) =
      Client.lookup world.redis (sessionKey T) := by
  induction reqs generalizing world with
  | nil => rfl
  | cons q rest ih =>
    obtain ⟨env, r⟩ := q
    have hq := h (env, r) (List.mem_cons_self _ _)
    simp only [serveAll]
    rw [ih _ (fun q hq2 => h q (List.mem_cons_of_mem _ hq2)), serve_lookup lib env r world T hq.1 hq.2]

theorem serveAll_lookup_none (lib : Lib) (T : String) (reqs : List (Env × Request))
    (world : World) (h : ∀ q ∈ reqs, ¬ issues T q)
    (h0 : Client.lookup world.redis (sessionKey T) = none) :
    Client.lookup (serveAll lib reqs world).redis (sessionKey T) = none := by
  induction reqs generalizing world with
  | nil => exact h0
  | cons q rest ih =>
    obtain ⟨env, r⟩ := q
    simp only [serveAll]
    exact ih _ (fun q hq2 => h q (List.mem_cons_of_mem _ hq2))
      (serve_lookup_none lib env r world T (h (env, r) (List.mem_cons_self _ _)) h0)

/-! ### Rows of `users` -/

theorem find_user_of_mem (users : List User) (u : User) (hmem : u ∈ users)
    (hunique : users.Pairwise (fun a b => a.username ≠ b.username)) :
    users.find? (fun v => v.username == u.username) = some u := by
  induction users with
  | nil => cases hmem
  | cons v rest ih =>
    rw [List.pairwise_cons] at hunique
    rcases List.mem_cons.mp hmem with h | h
    · subst h; simp [List.find?_cons]
    · have hne : v.username ≠ u.username := hunique.1 u h
      simp [List.find?_cons, hne, ih h hunique.2]

theorem find_user_none (users : List User) (name : String)
    (h : ∀ u ∈ users, u.username ≠ name) :
    users.find? (fun v => v.username == name) = none := by
  simp only [List.find?_eq_none]
  intro u hu
  simpa using h u hu

theorem Login_rejects_password (lib : Lib) (env : Env) (r : Request) (world : World)
    (req : LoginRequest) (u : User)
    (hmethod : r.Method = "POST")
    (hbody : lib.DecodeLoginRequest r.Body = some req)
    (hdb : env.dbErr = none)
    (hmem : u ∈ world.users) (hname : u.username = req.Username)
    (hunique : world.users.Pairwise (fun a b => a.username ≠ b.username))
    (hpw : lib.CompareHashAndPassword u.password_hash req.Password = false) :
    AuthHandler.Login lib env r ⟨world, ResponseWriter.fresh, []⟩ =
      ⟨world,
        ⟨some 401, [],
          [Body.json [("success", JVal.bool false), ("message", JVal.str "Invalid credentials")]]⟩,
        [StoreCall.dbQueryUser req.Username]⟩ := by
  have hf := find_user_of_mem world.users u hmem hunique
  rw [hname] at hf
  simp [AuthHandler.Login, DB.QueryUser, hmethod, hbody, hdb, hf, hpw]
  rfl

/-! ### Logout, path by path -/

theorem Logout_success (env : Env) (r : Request) (s : St)
    (hmethod : r.Method = "POST") (hsid : r.HeaderGet "X-Session-ID" ≠ "")
    (hredis : env.redisErr = none) :
    AuthHandler.Logout env r s =
      ⟨{ s.world with redis := (s.world.redis.filter
            (fun kv => kv.1 != sessionKey (r.HeaderGet "X-Session-ID"))) },
        (s.w.HeaderSet "Content-Type" "application/json").Encode
          [("message", JVal.str "Logout successful"), ("success", JVal.bool true)],
        s.calls ++ [StoreCall.redisDel (sessionKey (r.HeaderGet "X-Session-ID"))]⟩ := by
  simp [AuthHandler.Logout, RedisStore.Delete, Client.Del, hmethod, hsid, hredis]

theorem Logout_success_inv (env : Env) (r : Request) (world : World)
    (h : (AuthHandler.Logout env r ⟨world, ResponseWriter.fresh, []⟩).w.body =
      [Body.json [("message", JVal.str "Logout successful"), ("success", JVal.bool true)]]) :
    r.Method = "POST" ∧ r.HeaderGet "X-Session-ID" ≠ "" ∧ env.redisErr = none := by
  by_cases hm : r.Method = "POST"
  · by_cases hs : r.HeaderGet "X-Session-ID" = ""
    · simp [AuthHandler.Logout, hm, hs, ResponseWriter.Encode, ResponseWriter.Write,
        ResponseWriter.WriteHeader, ResponseWriter.fresh] at h
    · cases hr : env.redisErr with
      | some e =>
        simp [AuthHandler.Logout, RedisStore.Delete, Client.Del, hm, hs, hr, ResponseWriter.Encode,
          ResponseWriter.Write, ResponseWriter.WriteHeader, ResponseWriter.fresh] at h
      | none => exact ⟨hm, hs, rfl⟩
  · simp [AuthHandler.Logout, hm, httpError, ResponseWriter.Encode, ResponseWriter.Write,
      ResponseWriter.WriteHeader, ResponseWriter.HeaderSet, ResponseWriter.HeaderDel,
      ResponseWriter.fresh] at h

/-! ### Login, the path that creates a session -/

theorem Login_success (lib : Lib) (env : Env) (r : Request) (world : World)
    (req : LoginRequest) (u : User) (data : String)
    (hmethod : r.Method = "POST")
    (hbody : lib.DecodeLoginRequest r.Body = some req)
    (hdb : env.dbErr = none)
    (hfind : world.users.find? (fun v => v.username == req.Username) = some u)
    (hpw : lib.CompareHashAndPassword u.password_hash req.Password = true)
    (hmarshal : lib.Marshal ⟨u.id, req.Username, env.now⟩ = Except.ok data)
    (hredis : env.redisErr = none) :
    AuthHandler.Login lib env r ⟨world, ResponseWriter.fresh, []⟩ =
      ⟨{ world with redis := ((sessionKey env.uuid, ⟨data, some (env.now + 24 * Hour)⟩) ::
            world.redis.filter (fun kv => kv.1 != sessionKey env.uuid)) },
        ⟨some 200, [("Content-Type", "application/json")],
          [Body.json (LoginResponse true "Login successful" env.uuid)]⟩,
        [StoreCall.dbQueryUser req.Username,
          StoreCall.redisSet (sessionKey env.uuid) data (24 * Hour)]⟩ := by
  simp [AuthHandler.Login, DB.QueryUser, RedisStore.Set, Client.Set, hmethod, hbody, hdb, hfind,
    hpw, hmarshal, hredis]
  exact ⟨by decide, rfl⟩

theorem Login_success_inv (lib : Lib) (env : Env) (r : Request) (world : World)
    (h : (AuthHandler.Login lib env r ⟨world, ResponseWriter.fresh, []⟩).w.body =
      [Body.json (LoginResponse true "Login successful" env.uuid)]) :
    ∃ req u data, r.Method = "POST" ∧ lib.DecodeLoginRequest r.Body = some req ∧
      env.dbErr = none ∧
      world.users.find? (fun v => v.username == req.Username) = some u ∧
      lib.CompareHashAndPassword u.password_hash req.Password = true ∧
      lib.Marshal ⟨u.id, req.Username, env.now⟩ = Except.ok data ∧
      env.redisErr = none := by
  by_cases hm : r.Method = "POST"
  · cases hd : lib.DecodeLoginRequest r.Body with
    | none =>
      simp [AuthHandler.Login, hm, hd, ResponseWriter.Encode, ResponseWriter.Write,
        ResponseWriter.WriteHeader, ResponseWriter.fresh, LoginResponse] at h
    | some req =>
      cases hdb : env.dbErr with
      | some e =>
        simp [AuthHandler.Login, DB.QueryUser, hm, hd, hdb, ResponseWriter.Encode,
          ResponseWriter.Write, ResponseWriter.WriteHeader, ResponseWriter.fresh,
          LoginResponse] at h
      | none =>
        cases hf : world.users.find? (fun u => u.username == req.Username) with
        | none =>
          simp [AuthHandler.Login, DB.QueryUser, hm, hd, hdb, hf, ResponseWriter.Encode,
            ResponseWriter.Write, ResponseWriter.WriteHeader, ResponseWriter.fresh,
            LoginResponse] at h
        | some u =>
          cases hc : lib.CompareHashAndPassword u.password_hash req.Password with
          | false =>
            simp [AuthHandler.Login, DB.QueryUser, hm, hd, hdb, hf, hc, ResponseWriter.Encode,
              ResponseWriter.Write, ResponseWriter.WriteHeader, ResponseWriter.fresh,
              LoginResponse] at h
          | true =>
            cases hj : lib.Marshal ⟨u.id, req.Username, env.now⟩ with
            | error e =>
              simp [AuthHandler.Login, DB.QueryUser, RedisStore.Set, hm, hd, hdb, hf, hc, hj,
                ResponseWriter.Encode, ResponseWriter.Write, ResponseWriter.WriteHeader,
                ResponseWriter.fresh, LoginResponse] at h
            | ok data =>
              cases hr : env.redisErr with
              | some e =>
                simp [AuthHandler.Login, DB.QueryUser, RedisStore.Set, Client.Set, hm, hd, hdb,
                  hf, hc, hj, hr, ResponseWriter.Encode, ResponseWriter.Write,
                  ResponseWriter.WriteHeader, ResponseWriter.fresh, LoginResponse] at h
              | none => exact ⟨req, u, data, hm, rfl, rfl, hf, hc, hj, rfl⟩
  · simp [AuthHandler.Login, hm, httpError, ResponseWriter.Encode, ResponseWriter.Write,
      ResponseWriter.WriteHeader, ResponseWriter.HeaderSet, ResponseWriter.HeaderDel,
      ResponseWriter.fresh] at h

theorem Logout_tables (env : Env) (r : Request) (s : St) :
    (AuthHandler.Logout env r s).world.users = s.world.users ∧
      (AuthHandler.Logout env r s).world.posts = s.world.posts ∧
      (AuthHandler.Logout env r s).world.postSeq = s.world.postSeq := by
  by_cases hm : r.Method = "POST"
  · by_cases hs : r.HeaderGet "X-Session-ID" = ""
    · simp [AuthHandler.Logout, hm, hs]
    · cases hr : env.redisErr with
      | some e => simp [AuthHandler.Logout, RedisStore.Delete, Client.Del, hm, hs, hr]
      | none => simp [AuthHandler.Logout, RedisStore.Delete, Client.Del, hm, hs, hr]
  · simp [AuthHandler.Logout, hm]

/-! ### Creating a post -/

theorem CreatePost_success (lib : Lib) (env : Env) (r : Request) (s : St) (n : Int)
    (req : CreatePostRequest)
    (hmethod : r.Method = "POST")
    (hv : r.ctx.Value "user_id" = some (Any.int n))
    (hbody : lib.DecodeCreatePostRequest r.Body = some req)
    (hcontent : req.Content ≠ "")
    (hdb : env.dbErr = none)
    (hfk : s.world.users.any (fun u => u.id == n) = true) :
    PostHandler.CreatePost lib env r s =
      Except.ok
        ⟨{ s.world with
            posts := s.world.posts ++ [⟨(s.world.postSeq : Int) + 1, n, req.Content, env.now⟩],
            postSeq := s.world.postSeq + 1 },
          (s.w.HeaderSet "Content-Type" "application/json").Encode
            [("message", JVal.str "Post created"),
              ("post_id", JVal.int ((s.world.postSeq : Int) + 1)), ("success", JVal.bool true)],
          s.calls ++ [StoreCall.dbInsertPost n req.Content]⟩ := by
  simp [PostHandler.CreatePost, DB.InsertPost, hmethod, hv, hbody, hcontent, hdb, hfk]

/-! ### Store failures, endpoint by endpoint -/

theorem Login_db_failure (lib : Lib) (env : Env) (r : Request) (world : World)
    (req : LoginRequest) (e : String)
    (hmethod : r.Method = "POST") (hbody : lib.DecodeLoginRequest r.Body = some req)
    (hdb : env.dbErr = some e) :
    AuthHandler.Login lib env r ⟨world, ResponseWriter.fresh, []⟩ =
      ⟨world,
        ⟨some 500, [],
          [Body.json [("success", JVal.bool false), ("message", JVal.str "Server error")]]⟩,
        [StoreCall.dbQueryUser req.Username]⟩ := by
  simp [AuthHandler.Login, DB.QueryUser, hmethod, hbody, hdb]
  rfl

theorem Login_redis_failure (lib : Lib) (env : Env) (r : Request) (world : World)
    (req : LoginRequest) (u : User) (data e : String)
    (hmethod : r.Method = "POST") (hbody : lib.DecodeLoginRequest r.Body = some req)
    (hdb : env.dbErr = none)
    (hfind : world.users.find? (fun v => v.username == req.Username) = some u)
    (hpw : lib.CompareHashAndPassword u.password_hash req.Password = true)
    (hmarshal : lib.Marshal ⟨u.id, req.Username, env.now⟩ = Except.ok data)
    (hredis : env.redisErr = some e) :
    AuthHandler.Login lib env r ⟨world, ResponseWriter.fresh, []⟩ =
      ⟨world,
        ⟨some 500, [],
          [Body.json [("success", JVal.bool false),
            ("message", JVal.str "Failed to create session")]]⟩,
        [StoreCall.dbQueryUser req.Username,
          StoreCall.redisSet (sessionKey env.uuid) data (24 * Hour)]⟩ := by
  simp [AuthHandler.Login, DB.QueryUser, RedisStore.Set, Client.Set, hmethod, hbody, hdb, hfind,
    hpw, hmarshal, hredis]
  rfl

theorem Logout_redis_failure (env : Env) (r : Request) (world : World) (e : String)
    (hmethod : r.Method = "POST") (hsid : r.HeaderGet "X-Session-ID" ≠ "")
    (hredis : env.redisErr = some e) :
    AuthHandler.Logout env r ⟨world, ResponseWriter.fresh, []⟩ =
      ⟨world,
        ⟨some 500, [],
          [Body.json [("message", JVal.str "Failed to logout"), ("success", JVal.bool false)]]⟩,
        [StoreCall.redisDel (sessionKey (r.HeaderGet "X-Session-ID"))]⟩ := by
  simp [AuthHandler.Logout, RedisStore.Delete, Client.Del, hmethod, hsid, hredis]
  rfl

theorem CreatePost_db_failure (lib : Lib) (env : Env) (r : Request) (s : St) (n : Int)
    (req : CreatePostRequest) (e : String)
    (hmethod : r.Method = "POST")
    (hv : r.ctx.Value "user_id" = some (Any.int n))
    (hbody : lib.DecodeCreatePostRequest r.Body = some req)
    (hcontent : req.Content ≠ "")
    (hdb : env.dbErr = some e) :
    PostHandler.CreatePost lib env r s =
      Except.ok
        ⟨s.world,
          (s.w.WriteHeader 500).Encode
            [("message", JVal.str "Failed to create post"), ("success", JVal.bool false)],
          s.calls ++ [StoreCall.dbInsertPost n req.Content]⟩ := by
  simp [PostHandler.CreatePost, DB.InsertPost, hmethod, hv, hbody, hcontent, hdb]

theorem ListPosts_db_failure (env : Env) (r : Request) (s : St) (e : String)
    (hmethod : r.Method = "GET") (hdb : env.dbErr = some e) :
    PostHandler.ListPosts env r s =
      ⟨s.world,
        (s.w.WriteHeader 500).Encode
          [("message", JVal.str "Failed to fetch posts"), ("success", JVal.bool false)],
        s.calls ++ [StoreCall.dbQueryPosts]⟩ := by
  simp [PostHandler.ListPosts, DB.QueryPosts, hmethod, hdb]

/-- A failed session lookup, whatever the failure, is answered 401 by the
middleware after a single call to Redis. -/
theorem AuthMiddleware_redis_failure (lib : Lib) (next : Handler) (env : Env) (r : Request)
    (world : World) (e : String)
    (hsid : r.HeaderGet "X-Session-ID" ≠ "") (hredis : env.redisErr = some e) :
    AuthMiddleware lib next env r ⟨world, ResponseWriter.fresh, []⟩ =
      Except.ok ⟨world,
        ⟨some 401, [("Content-Type", "application/json")],
          [Body.json [("message", JVal.str "Invalid or expired session"),
            ("success", JVal.bool false)]]⟩,
        [StoreCall.redisGet (sessionKey (r.HeaderGet "X-Session-ID"))]⟩ := by
  have hg : (RedisStore.Get lib env (r.HeaderGet "X-Session-ID")
      ⟨world, ResponseWriter.fresh, []⟩).1 = Except.error (Error.msg e) := by
    simp [RedisStore.Get, Client.Get, hredis]
  rw [AuthMiddleware_of_error lib next env r _ _ hsid hg]
  rfl

/-- Without the middleware in front, `CreatePost` panics on a request whose
context carries no `user_id`. -/
theorem CreatePost_panics_without_identity :
    PostHandler.CreatePost demoLib (demoEnv 2000) (postRequest demoToken "hello")
        ⟨loggedInWorld, ResponseWriter.fresh, []⟩ =
      Except.error "interface conversion: interface is not int" := by
  rfl

/-! ## The claims -/

/-- C5. Authorization gate. Whatever the wrapped handler is, `AuthMiddleware`
hands the request on to it exactly when the `X-Session-ID` header is non-empty
and `RedisStore.Get` of that token succeeds. With an empty or missing header the
outcome is status 401 with message "No session ID provided" and no store call;
with a token whose lookup fails it is status 401 with message "Invalid or
expired session"; neither outcome depends on the wrapped handler. A token with
no entry, or with an entry past its deadline, is one whose lookup fails. -/
theorem auth_gate (lib : Lib) (env : Env) (r : Request) (world : World) :
    ((∃ r2 s2, ∀ next : Handler,
        AuthMiddleware lib next env r ⟨world, ResponseWriter.fresh, []⟩ = next env r2 s2) ↔
      (r.HeaderGet "X-Session-ID" ≠ "" ∧
        ∃ sess, (RedisStore.Get lib env (r.HeaderGet "X-Session-ID")
          ⟨world, ResponseWriter.fresh, []⟩).1 = Except.ok sess)) ∧
    (r.HeaderGet "X-Session-ID" = "" →
      ∀ next : Handler, AuthMiddleware lib next env r ⟨world, ResponseWriter.fresh, []⟩ =
        Except.ok ⟨world,
          ⟨some 401, [("Content-Type", "application/json")],
            [Body.json [("message", JVal.str "No session ID provided"),
              ("success", JVal.bool false)]]⟩,
          []⟩) ∧
    (r.HeaderGet "X-Session-ID" ≠ "" →
      ∀ err, (RedisStore.Get lib env (r.HeaderGet "X-Session-ID")
          ⟨world, ResponseWriter.fresh, []⟩).1 = Except.error err →
      ∀ next : Handler, AuthMiddleware lib next env r ⟨world, ResponseWriter.fresh, []⟩ =
        Except.ok ⟨world,
          ⟨some 401, [("Content-Type", "application/json")],
            [Body.json [("message", JVal.str "Invalid or expired session"),
              ("success", JVal.bool false)]]⟩,
          [StoreCall.redisGet (sessionKey (r.HeaderGet "X-Session-ID"))]⟩) ∧
    ((∀ e, Client.lookup world.redis (sessionKey (r.HeaderGet "X-Session-ID")) = some e →
        Client.live env.now e = false) →
      ∃ err, (RedisStore.Get lib env (r.HeaderGet "X-Session-ID")
          ⟨world, ResponseWriter.fresh, []⟩).1 = Except.error err) := by
  have hempty : r.HeaderGet "X-Session-ID" = "" →
      ∀ next : Handler, AuthMiddleware lib next env r ⟨world, ResponseWriter.fresh, []⟩ =
        Except.ok ⟨world,
          ⟨some 401, [("Content-Type", "application/json")],
            [Body.json [("message", JVal.str "No session ID provided"),
              ("success", JVal.bool false)]]⟩,
          []⟩ := by
    intro h next
    rw [AuthMiddleware_of_empty lib next env r _ h]
    rfl
  have herr : r.HeaderGet "X-Session-ID" ≠ "" →
      ∀ err, (RedisStore.Get lib env (r.HeaderGet "X-Session-ID")
          ⟨world, ResponseWriter.fresh, []⟩).1 = Except.error err →
      ∀ next : Handler, AuthMiddleware lib next env r ⟨world, ResponseWriter.fresh, []⟩ =
        Except.ok ⟨world,
          ⟨some 401, [("Content-Type", "application/json")],
            [Body.json [("message", JVal.str "Invalid or expired session"),
              ("success", JVal.bool false)]]⟩,
          [StoreCall.redisGet (sessionKey (r.HeaderGet "X-Session-ID"))]⟩ := by
    intro h err hg next
    rw [AuthMiddleware_of_error lib next env r _ err h hg]
    rfl
  refine ⟨⟨?_, ?_⟩, hempty, herr, ?_⟩
  · rintro ⟨r2, s2, hall⟩
    -- a handler that panics tells whether the handler was reached
    have ha := hall (fun _ _ _ => Except.error "a")
    by_cases he : r.HeaderGet "X-Session-ID" = ""
    · rw [hempty he] at ha
      cases ha
    · refine ⟨he, ?_⟩
      cases hg : (RedisStore.Get lib env (r.HeaderGet "X-Session-ID")
          ⟨world, ResponseWriter.fresh, []⟩).1 with
      | error err =>
        rw [herr he err hg] at ha
        cases ha
      | ok sess => exact ⟨sess, rfl⟩
  · rintro ⟨he, sess, hg⟩
    exact ⟨_, _, fun next => AuthMiddleware_of_ok lib next env r _ sess he hg⟩
  · intro hdead
    exact RedisStore.Get_error_of_dead lib env _ _ hdead

/-- C2. A well-formed login whose username is in `users` and whose password the
hash comparison rejects is answered with status 401, `success` false, message
"Invalid credentials" and no `session_id`; the world is the one before the
request, and the only store call is the query for the user (no `Set`). -/
theorem login_wrong_password (lib : Lib) (env : Env) (r : Request) (world : World)
    (req : LoginRequest) (u : User)
    (hmethod : r.Method = "POST")
    (hbody : lib.DecodeLoginRequest r.Body = some req)
    (hdb : env.dbErr = none)
    (hmem : u ∈ world.users) (hname : u.username = req.Username)
    (hunique : world.users.Pairwise (fun a b => a.username ≠ b.username))
    (hpw : lib.CompareHashAndPassword u.password_hash req.Password = false) :
    AuthHandler.Login lib env r ⟨world, ResponseWriter.fresh, []⟩ =
      ⟨world,
        ⟨some 401, [],
          [Body.json [("success", JVal.bool false), ("message", JVal.str "Invalid credentials")]]⟩,
        [StoreCall.dbQueryUser req.Username]⟩ :=
  Login_rejects_password lib env r world req u hmethod hbody hdb hmem hname hunique hpw

theorem login_wrong_password_witness :
    AuthHandler.Login demoLib (demoEnv 2000) (loginRequest "wrong")
        ⟨loggedInWorld, ResponseWriter.fresh, []⟩ =
      ⟨loggedInWorld,
        ⟨some 401, [],
          [Body.json [("success", JVal.bool false), ("message", JVal.str "Invalid credentials")]]⟩,
        [StoreCall.dbQueryUser "testuser"]⟩ :=
  login_wrong_password demoLib (demoEnv 2000) (loginRequest "wrong") loggedInWorld
    ⟨"testuser", "letmein"⟩ demoUser rfl rfl rfl (by decide) rfl (by decide) (by decide)

/-- C6. No username enumeration through the response. Of two well-formed logins
against the same world, one naming a username that is in no row of `users` and
one naming an existing username with a password the hash comparison rejects,
both leave the same response writer (status 401, no header, the same JSON body)
and both leave the world as it was. -/
theorem login_failures_indistinguishable (lib : Lib) (env1 env2 : Env) (r1 r2 : Request)
    (world : World) (req1 req2 : LoginRequest) (u : User)
    (hmethod1 : r1.Method = "POST") (hmethod2 : r2.Method = "POST")
    (hbody1 : lib.DecodeLoginRequest r1.Body = some req1)
    (hbody2 : lib.DecodeLoginRequest r2.Body = some req2)
    (hdb1 : env1.dbErr = none) (hdb2 : env2.dbErr = none)
    (habsent : ∀ v ∈ world.users, v.username ≠ req1.Username)
    (hmem : u ∈ world.users) (hname : u.username = req2.Username)
    (hunique : world.users.Pairwise (fun a b => a.username ≠ b.username))
    (hpw : lib.CompareHashAndPassword u.password_hash req2.Password = false) :
    (AuthHandler.Login lib env1 r1 ⟨world, ResponseWriter.fresh, []⟩).w =
        (AuthHandler.Login lib env2 r2 ⟨world, ResponseWriter.fresh, []⟩).w ∧
      (AuthHandler.Login lib env1 r1 ⟨world, ResponseWriter.fresh, []⟩).w =
        ⟨some 401, [],
          [Body.json [("success", JVal.bool false), ("message", JVal.str "Invalid credentials")]]⟩ ∧
      (AuthHandler.Login lib env1 r1 ⟨world, ResponseWriter.fresh, []⟩).world = world ∧
      (AuthHandler.Login lib env2 r2 ⟨world, ResponseWriter.fresh, []⟩).world = world := by
  have h2 := Login_rejects_password lib env2 r2 world req2 u hmethod2 hbody2 hdb2 hmem hname
    hunique hpw
  have hf := find_user_none world.users req1.Username habsent
  have h1 : AuthHandler.Login lib env1 r1 ⟨world, ResponseWriter.fresh, []⟩ =
      ⟨world,
        ⟨some 401, [],
          [Body.json [("success", JVal.bool false), ("message", JVal.str "Invalid credentials")]]⟩,
        [StoreCall.dbQueryUser req1.Username]⟩ := by
    simp [AuthHandler.Login, DB.QueryUser, hmethod1, hbody1, hdb1, hf]
    rfl
  rw [h1, h2]
  exact ⟨rfl, rfl, rfl, rfl⟩

theorem login_failures_indistinguishable_witness :
    (AuthHandler.Login demoLib (demoEnv 2000) (loginRequest "nobody")
        ⟨loggedInWorld, ResponseWriter.fresh, []⟩).w =
      (AuthHandler.Login demoLib (demoEnv 3000) (loginRequest "wrong")
        ⟨loggedInWorld, ResponseWriter.fresh, []⟩).w :=
  (login_failures_indistinguishable demoLib (demoEnv 2000) (demoEnv 3000) (loginRequest "nobody")
    (loginRequest "wrong") loggedInWorld ⟨"mallory", "password123"⟩ ⟨"testuser", "letmein"⟩
    demoUser rfl rfl rfl rfl rfl rfl (by decide) (by decide) rfl (by decide) (by decide)).1

/-- C4. Logout is idempotent. For a non-empty token and any world, whether or
not the token has an entry, two consecutive logout requests naming the token
(Redis answering both) are both answered with status 200 and `success` true,
and the world after the second is the world after the first. -/
theorem logout_idempotent (env1 env2 : Env) (r1 r2 : Request) (world : World) (T : String)
    (hT : T ≠ "")
    (hmethod1 : r1.Method = "POST") (hmethod2 : r2.Method = "POST")
    (hsid1 : r1.HeaderGet "X-Session-ID" = T) (hsid2 : r2.HeaderGet "X-Session-ID" = T)
    (hredis1 : env1.redisErr = none) (hredis2 : env2.redisErr = none) :
    (AuthHandler.Logout env1 r1 ⟨world, ResponseWriter.fresh, []⟩).w =
        ⟨some 200, [("Content-Type", "application/json")],
          [Body.json [("message", JVal.str "Logout successful"), ("success", JVal.bool true)]]⟩ ∧
      (AuthHandler.Logout env2 r2
          ⟨(AuthHandler.Logout env1 r1 ⟨world, ResponseWriter.fresh, []⟩).world,
            ResponseWriter.fresh, []⟩).w =
        ⟨some 200, [("Content-Type", "application/json")],
          [Body.json [("message", JVal.str "Logout successful"), ("success", JVal.bool true)]]⟩ ∧
      (AuthHandler.Logout env2 r2
          ⟨(AuthHandler.Logout env1 r1 ⟨world, ResponseWriter.fresh, []⟩).world,
            ResponseWriter.fresh, []⟩).world =
        (AuthHandler.Logout env1 r1 ⟨world, ResponseWriter.fresh, []⟩).world := by
  have h1 : r1.HeaderGet "X-Session-ID" ≠ "" := by rw [hsid1]; exact hT
  have h2 : r2.HeaderGet "X-Session-ID" ≠ "" := by rw [hsid2]; exact hT
  rw [Logout_success env1 r1 _ hmethod1 h1 hredis1, Logout_success env2 r2 _ hmethod2 h2 hredis2]
  refine ⟨rfl, rfl, ?_⟩
  simp [hsid1, hsid2, List.filter_filter]

theorem logout_idempotent_witness :
    (AuthHandler.Logout (demoEnv 3000) (logoutRequest demoToken)
        ⟨(AuthHandler.Logout (demoEnv 2000) (logoutRequest demoToken)
            ⟨loggedInWorld, ResponseWriter.fresh, []⟩).world,
          ResponseWriter.fresh, []⟩).world =
      (AuthHandler.Logout (demoEnv 2000) (logoutRequest demoToken)
        ⟨loggedInWorld, ResponseWriter.fresh, []⟩).world :=
  (logout_idempotent (demoEnv 2000) (demoEnv 3000) (logoutRequest demoToken)
    (logoutRequest demoToken) loggedInWorld demoToken (by decide) rfl rfl (by decide) (by decide)
    rfl rfl).2.2

/-- C3. After a logout request naming token `T` that reports success, and after
any run of further requests in which no login is issued `T` again, a protected
request that carries `T` is answered by `AuthMiddleware` with status 401 and
message "Invalid or expired session", whatever the wrapped handler is and
whatever the instant: the handler is not reached. -/
theorem logout_then_unauthorized (lib : Lib) (env : Env) (r : Request) (world : World)
    (T : String) (later : List (Env × Request)) (env2 : Env) (r2 : Request) (next : Handler)
    (hsid : r.HeaderGet "X-Session-ID" = T)
    (hsuccess : (AuthHandler.Logout env r ⟨world, ResponseWriter.fresh, []⟩).w.body =
      [Body.json [("message", JVal.str "Logout successful"), ("success", JVal.bool true)]])
    (hlater : ∀ q ∈ later, ¬ issues T q)
    (hsid2 : r2.HeaderGet "X-Session-ID" = T) :
    AuthMiddleware lib next env2 r2
        ⟨serveAll lib later (AuthHandler.Logout env r ⟨world, ResponseWriter.fresh, []⟩).world,
          ResponseWriter.fresh, []⟩ =
      Except.ok
        ⟨serveAll lib later (AuthHandler.Logout env r ⟨world, ResponseWriter.fresh, []⟩).world,
          ⟨some 401, [("Content-Type", "application/json")],
            [Body.json [("message", JVal.str "Invalid or expired session"),
              ("success", JVal.bool false)]]⟩,
          [StoreCall.redisGet (sessionKey T)]⟩ := by
  obtain ⟨hm, hs, hr⟩ := Logout_success_inv env r world hsuccess
  have hgone : Client.lookup
      (AuthHandler.Logout env r ⟨world, ResponseWriter.fresh, []⟩).world.redis (sessionKey T) =
      none := by
    rw [Logout_success env r _ hm hs hr, hsid]
    exact Client.lookup_filter_self _ _
  have hstill := serveAll_lookup_none lib T later _ hlater hgone
  have hne : r2.HeaderGet "X-Session-ID" ≠ "" := by rw [hsid2, ← hsid]; exact hs
  obtain ⟨err, herr⟩ := RedisStore.Get_error_of_dead lib env2 (r2.HeaderGet "X-Session-ID")
    ⟨serveAll lib later (AuthHandler.Logout env r ⟨world, ResponseWriter.fresh, []⟩).world,
      ResponseWriter.fresh, []⟩ (by
      intro e he
      rw [hsid2] at he
      rw [hstill] at he
      cases he)
  rw [AuthMiddleware_of_error lib next env2 r2 _ err hne herr, hsid2]
  rfl

theorem logout_then_unauthorized_witness :
    AuthMiddleware demoLib (PostHandler.CreatePost demoLib) (demoEnv 5000)
        (postRequest demoToken "hello")
        ⟨serveAll demoLib [(demoEnv 4000, listRequest demoToken)]
            (AuthHandler.Logout (demoEnv 3000) (logoutRequest demoToken)
              ⟨loggedInWorld, ResponseWriter.fresh, []⟩).world,
          ResponseWriter.fresh, []⟩ =
      Except.ok
        ⟨serveAll demoLib [(demoEnv 4000, listRequest demoToken)]
            (AuthHandler.Logout (demoEnv 3000) (logoutRequest demoToken)
              ⟨loggedInWorld, ResponseWriter.fresh, []⟩).world,
          ⟨some 401, [("Content-Type", "application/json")],
            [Body.json [("message", JVal.str "Invalid or expired session"),
              ("success", JVal.bool false)]]⟩,
          [StoreCall.redisGet (sessionKey demoToken)]⟩ :=
  logout_then_unauthorized demoLib (demoEnv 3000) (logoutRequest demoToken) loggedInWorld
    demoToken [(demoEnv 4000, listRequest demoToken)] (demoEnv 5000)
    (postRequest demoToken "hello") (PostHandler.CreatePost demoLib) (by decide) (by decide)
    (by simp [issues, listRequest]) (by decide)

/-- C1. Login-then-authorize round trip. For every world, every row
`(id, username, hash)` of `users` (usernames being unique) and every password
the hash comparison accepts, a well-formed login answered by both stores
responds with status 200, `success` true and session id `T`, the string of the
UUID generator. If the codec gives back the user id and the username it was
given, then after any run of requests that neither log `T` out nor issue it
again, a protected request carrying `X-Session-ID = T` before the expiry, Redis
answering, passes `AuthMiddleware`: the wrapped handler is called with
`user_id = id` and `username` the login username in its context. -/
theorem login_then_authorize (lib : Lib) (env : Env) (r : Request) (world : World)
    (req : LoginRequest) (u : User) (data : String) (sess : Session)
    (between : List (Env × Request)) (env2 : Env) (r2 : Request) (next : Handler)
    (hmethod : r.Method = "POST")
    (hbody : lib.DecodeLoginRequest r.Body = some req)
    (hmem : u ∈ world.users) (hname : u.username = req.Username)
    (hunique : world.users.Pairwise (fun a b => a.username ≠ b.username))
    (hpw : lib.CompareHashAndPassword u.password_hash req.Password = true)
    (hdb : env.dbErr = none) (hredis : env.redisErr = none)
    (huuid : env.uuid ≠ "")
    (hmarshal : lib.Marshal ⟨u.id, req.Username, env.now⟩ = Except.ok data)
    (hunmarshal : lib.Unmarshal data = Except.ok sess)
    (hid : sess.UserID = u.id) (husername : sess.Username = req.Username)
    (hbetween : ∀ q ∈ between, ¬ issues env.uuid q ∧ ¬ revokes env.uuid q)
    (hsid2 : r2.HeaderGet "X-Session-ID" = env.uuid)
    (hredis2 : env2.redisErr = none)
    (hbefore : env2.now < env.now + 24 * Hour) :
    (AuthHandler.Login lib env r ⟨world, ResponseWriter.fresh, []⟩).w =
        ⟨some 200, [("Content-Type", "application/json")],
          [Body.json [("success", JVal.bool true), ("message", JVal.str "Login successful"),
            ("session_id", JVal.str env.uuid)]]⟩ ∧
      AuthMiddleware lib next env2 r2
          ⟨serveAll lib between
              (AuthHandler.Login lib env r ⟨world, ResponseWriter.fresh, []⟩).world,
            ResponseWriter.fresh, []⟩ =
        next env2
          (r2.WithContext
            ((r2.ctx.WithValue "user_id" (Any.int u.id)).WithValue "username"
              (Any.str req.Username)))
          ⟨serveAll lib between
              (AuthHandler.Login lib env r ⟨world, ResponseWriter.fresh, []⟩).world,
            ResponseWriter.fresh, [StoreCall.redisGet (sessionKey env.uuid)]⟩ := by
  have hf := find_user_of_mem world.users u hmem hunique
  rw [hname] at hf
  have hlogin := Login_success lib env r world req u data hmethod hbody hdb hf hpw hmarshal hredis
  constructor
  · rw [hlogin]
    simp [LoginResponse, huuid]
  · have hstored : Client.lookup
        (AuthHandler.Login lib env r ⟨world, ResponseWriter.fresh, []⟩).world.redis
        (sessionKey env.uuid) = some ⟨data, some (env.now + 24 * Hour)⟩ := by
      rw [hlogin]
      simp [Client.lookup_cons]
    have hkept := serveAll_lookup lib env.uuid between
      (AuthHandler.Login lib env r ⟨world, ResponseWriter.fresh, []⟩).world hbetween
    rw [hstored] at hkept
    have hne : r2.HeaderGet "X-Session-ID" ≠ "" := by rw [hsid2]; exact huuid
    have hget := RedisStore.Get_ok lib env2 (r2.HeaderGet "X-Session-ID")
      ⟨serveAll lib between
          (AuthHandler.Login lib env r ⟨world, ResponseWriter.fresh, []⟩).world,
        ResponseWriter.fresh, []⟩ ⟨data, some (env.now + 24 * Hour)⟩ sess hredis2
      (by rw [hsid2]; exact hkept) (by simp [Client.live, hbefore]) hunmarshal
    rw [AuthMiddleware_of_ok lib next env2 r2 _ sess hne hget, hid, husername, hsid2]
    rfl

theorem login_then_authorize_witness :
    AuthMiddleware demoLib (PostHandler.CreatePost demoLib) (demoEnv 3000)
        (postRequest demoToken "hello")
        ⟨serveAll demoLib [(demoEnv 2000, logoutRequest otherToken)]
            (AuthHandler.Login demoLib (demoEnv 1000) (loginRequest "good")
              ⟨demoWorld, ResponseWriter.fresh, []⟩).world,
          ResponseWriter.fresh, []⟩ =
      PostHandler.CreatePost demoLib (demoEnv 3000)
        ((postRequest demoToken "hello").WithContext
          (((postRequest demoToken "hello").ctx.WithValue "user_id" (Any.int 1)).WithValue
            "username" (Any.str "testuser")))
        ⟨serveAll demoLib [(demoEnv 2000, logoutRequest otherToken)]
            (AuthHandler.Login demoLib (demoEnv 1000) (loginRequest "good")
              ⟨demoWorld, ResponseWriter.fresh, []⟩).world,
          ResponseWriter.fresh, [StoreCall.redisGet (sessionKey demoToken)]⟩ :=
  (login_then_authorize demoLib (demoEnv 1000) (loginRequest "good") demoWorld
    ⟨"testuser", "password123"⟩ demoUser "1|testuser" ⟨1, "testuser", 0⟩
    [(demoEnv 2000, logoutRequest otherToken)] (demoEnv 3000) (postRequest demoToken "hello")
    (PostHandler.CreatePost demoLib) rfl rfl (by decide) rfl (by decide) (by decide) rfl rfl
    (by decide) rfl rfl rfl rfl
    (by simp [issues, revokes, logoutRequest, demoEnv, Request.HeaderGet, demoToken, otherToken])
    (by decide) rfl (by decide)).2

/-- C7. Fixed 24-hour lifetime, no renewal. A login at instant `t` that reports
success with a non-empty token `T` stores the session under `session:T` with
deadline exactly `t + 24h`. After any run of requests that neither log `T` out
nor issue it again (protected requests carrying `T` among them) the entry and
its deadline are the same; a protected request carrying `T` then reaches the
wrapped handler at every instant before `t + 24h` (Redis answering, the stored
string decoding) and is answered 401 at every instant from `t + 24h` on.
`RedisStore.Get` returns the world it was given, and `AuthMiddleware` changes
the keyspace only if the wrapped handler does. -/
theorem session_lifetime_fixed (lib : Lib) (env : Env) (r : Request) (world : World)
    (between : List (Env × Request)) (env2 : Env) (r2 : Request) (next : Handler)
    (hsuccess : (AuthHandler.Login lib env r ⟨world, ResponseWriter.fresh, []⟩).w.body =
      [Body.json (LoginResponse true "Login successful" env.uuid)])
    (huuid : env.uuid ≠ "")
    (hbetween : ∀ q ∈ between, ¬ issues env.uuid q ∧ ¬ revokes env.uuid q)
    (hsid2 : r2.HeaderGet "X-Session-ID" = env.uuid) :
    ∃ data,
      Client.lookup (AuthHandler.Login lib env r ⟨world, ResponseWriter.fresh, []⟩).world.redis
          (sessionKey env.uuid) = some ⟨data, some (env.now + 24 * Hour)⟩ ∧
      Client.lookup
          (serveAll lib between
            (AuthHandler.Login lib env r ⟨world, ResponseWriter.fresh, []⟩).world).redis
          (sessionKey env.uuid) = some ⟨data, some (env.now + 24 * Hour)⟩ ∧
      (env2.now < env.now + 24 * Hour → env2.redisErr = none →
        ∀ sess, lib.Unmarshal data = Except.ok sess →
          AuthMiddleware lib next env2 r2
              ⟨serveAll lib between
                  (AuthHandler.Login lib env r ⟨world, ResponseWriter.fresh, []⟩).world,
                ResponseWriter.fresh, []⟩ =
            next env2
              (r2.WithContext
                ((r2.ctx.WithValue "user_id" (Any.int sess.UserID)).WithValue "username"
                  (Any.str sess.Username)))
              ⟨serveAll lib between
                  (AuthHandler.Login lib env r ⟨world, ResponseWriter.fresh, []⟩).world,
                ResponseWriter.fresh, [StoreCall.redisGet (sessionKey env.uuid)]⟩) ∧
      (env.now + 24 * Hour ≤ env2.now →
        AuthMiddleware lib next env2 r2
            ⟨serveAll lib between
                (AuthHandler.Login lib env r ⟨world, ResponseWriter.fresh, []⟩).world,
              ResponseWriter.fresh, []⟩ =
          Except.ok
            ⟨serveAll lib between
                (AuthHandler.Login lib env r ⟨world, ResponseWriter.fresh, []⟩).world,
              ⟨some 401, [("Content-Type", "application/json")],
                [Body.json [("message", JVal.str "Invalid or expired session"),
                  ("success", JVal.bool false)]]⟩,
              [StoreCall.redisGet (sessionKey env.uuid)]⟩) ∧
      (∀ (e : Env) (sid : String) (s : St), (RedisStore.Get lib e sid s).2.world = s.world) ∧
      (∀ (nx : Handler) (e : Env) (q : Request) (s t : St),
        (∀ e1 q1 s1 t1, nx e1 q1 s1 = Except.ok t1 → t1.world.redis = s1.world.redis) →
        AuthMiddleware lib nx e q s = Except.ok t → t.world.redis = s.world.redis) := by
  obtain ⟨req, u, data, hm, hd, hdb, hf, hc, hj, hr⟩ := Login_success_inv lib env r world hsuccess
  have hlogin := Login_success lib env r world req u data hm hd hdb hf hc hj hr
  have hstored : Client.lookup
      (AuthHandler.Login lib env r ⟨world, ResponseWriter.fresh, []⟩).world.redis
      (sessionKey env.uuid) = some ⟨data, some (env.now + 24 * Hour)⟩ := by
    rw [hlogin]
    simp [Client.lookup_cons]
  have hkept := serveAll_lookup lib env.uuid between
    (AuthHandler.Login lib env r ⟨world, ResponseWriter.fresh, []⟩).world hbetween
  rw [hstored] at hkept
  have hne : r2.HeaderGet "X-Session-ID" ≠ "" := by rw [hsid2]; exact huuid
  refine ⟨data, hstored, hkept, ?_, ?_, ?_, ?_⟩
  · intro hbefore hredis2 sess hunmarshal
    have hget := RedisStore.Get_ok lib env2 (r2.HeaderGet "X-Session-ID")
      ⟨serveAll lib between
          (AuthHandler.Login lib env r ⟨world, ResponseWriter.fresh, []⟩).world,
        ResponseWriter.fresh, []⟩ ⟨data, some (env.now + 24 * Hour)⟩ sess hredis2
      (by rw [hsid2]; exact hkept) (by simp [Client.live, hbefore]) hunmarshal
    rw [AuthMiddleware_of_ok lib next env2 r2 _ sess hne hget, hsid2]
    rfl
  · intro hafter
    obtain ⟨err, herr⟩ := RedisStore.Get_error_of_dead lib env2 (r2.HeaderGet "X-Session-ID")
      ⟨serveAll lib between
          (AuthHandler.Login lib env r ⟨world, ResponseWriter.fresh, []⟩).world,
        ResponseWriter.fresh, []⟩ (by
        intro e he
        rw [hsid2] at he
        rw [hkept] at he
        cases he
        simp [Client.live, hafter])
    rw [AuthMiddleware_of_error lib next env2 r2 _ err hne herr, hsid2]
    rfl
  · intro e sid s
    rw [RedisStore.Get_snd]
  · intro nx e q s t hnx ht
    exact AuthMiddleware_keeps_redis lib nx hnx e q s t ht

theorem session_lifetime_fixed_witness :
    ∃ data,
      Client.lookup
          (AuthHandler.Login demoLib (demoEnv 1000) (loginRequest "good")
            ⟨demoWorld, ResponseWriter.fresh, []⟩).world.redis
          (sessionKey demoToken) = some ⟨data, some (1000 + 24 * Hour)⟩ ∧
      AuthMiddleware demoLib (PostHandler.CreatePost demoLib) (demoEnv (1000 + 24 * Hour))
          (postRequest demoToken "late")
          ⟨serveAll demoLib
              [(demoEnv 2000, postRequest demoToken "hello"), (demoEnv 2500, listRequest demoToken)]
              (AuthHandler.Login demoLib (demoEnv 1000) (loginRequest "good")
                ⟨demoWorld, ResponseWriter.fresh, []⟩).world,
            ResponseWriter.fresh, []⟩ =
        Except.ok
          ⟨serveAll demoLib
              [(demoEnv 2000, postRequest demoToken "hello"), (demoEnv 2500, listRequest demoToken)]
              (AuthHandler.Login demoLib (demoEnv 1000) (loginRequest "good")
                ⟨demoWorld, ResponseWriter.fresh, []⟩).world,
            ⟨some 401, [("Content-Type", "application/json")],
              [Body.json [("message", JVal.str "Invalid or expired session"),
                ("success", JVal.bool false)]]⟩,
            [StoreCall.redisGet (sessionKey demoToken)]⟩ :=
  let ⟨data, h1, _, _, h4, _⟩ :=
    session_lifetime_fixed demoLib (demoEnv 1000) (loginRequest "good") demoWorld
      [(demoEnv 2000, postRequest demoToken "hello"), (demoEnv 2500, listRequest demoToken)]
      (demoEnv (1000 + 24 * Hour)) (postRequest demoToken "late") (PostHandler.CreatePost demoLib)
      (by decide) (by decide)
      (by simp [issues, revokes, postRequest, listRequest])
      (by decide)
  ⟨data, h1, h4 (by decide)⟩

/-- C9. Sessions are independent. A logout naming `T1` leaves both tables alone
and changes no keyspace entry other than the one under `session:T1`. For a
token `T2` other than `T1` the session lookup gives the same result after the
logout as before it, so a protected request carrying `T2` reaches the wrapped
handler after the logout exactly when it did before, with the same `user_id`
and `username` in its context, and is answered 401 otherwise. A login changes
no entry other than the one under the key of the token it issues; when that
token has no entry yet, every entry there was is still there, unchanged. -/
theorem sessions_independent (lib : Lib) (env : Env) (r : Request) (world : World)
    (T1 T2 : String) (env2 : Env) (r2 : Request) (next : Handler) (env3 : Env) (r3 : Request)
    (hne : T1 ≠ T2)
    (hsid : r.HeaderGet "X-Session-ID" = T1)
    (hsid2 : r2.HeaderGet "X-Session-ID" = T2) (hT2 : T2 ≠ "") :
    ((AuthHandler.Logout env r ⟨world, ResponseWriter.fresh, []⟩).world.users = world.users ∧
      (AuthHandler.Logout env r ⟨world, ResponseWriter.fresh, []⟩).world.posts = world.posts ∧
      (AuthHandler.Logout env r ⟨world, ResponseWriter.fresh, []⟩).world.postSeq =
        world.postSeq) ∧
    (∀ k, k ≠ sessionKey T1 →
      Client.lookup (AuthHandler.Logout env r ⟨world, ResponseWriter.fresh, []⟩).world.redis k =
        Client.lookup world.redis k) ∧
    (RedisStore.Get lib env2 T2
        ⟨(AuthHandler.Logout env r ⟨world, ResponseWriter.fresh, []⟩).world,
          ResponseWriter.fresh, []⟩).1 =
      (RedisStore.Get lib env2 T2 ⟨world, ResponseWriter.fresh, []⟩).1 ∧
    (∀ sess, (RedisStore.Get lib env2 T2 ⟨world, ResponseWriter.fresh, []⟩).1 = Except.ok sess →
      AuthMiddleware lib next env2 r2 ⟨world, ResponseWriter.fresh, []⟩ =
          next env2
            (r2.WithContext
              ((r2.ctx.WithValue "user_id" (Any.int sess.UserID)).WithValue "username"
                (Any.str sess.Username)))
            ⟨world, ResponseWriter.fresh, [StoreCall.redisGet (sessionKey T2)]⟩ ∧
        AuthMiddleware lib next env2 r2
            ⟨(AuthHandler.Logout env r ⟨world, ResponseWriter.fresh, []⟩).world,
              ResponseWriter.fresh, []⟩ =
          next env2
            (r2.WithContext
              ((r2.ctx.WithValue "user_id" (Any.int sess.UserID)).WithValue "username"
                (Any.str sess.Username)))
            ⟨(AuthHandler.Logout env r ⟨world, ResponseWriter.fresh, []⟩).world,
              ResponseWriter.fresh, [StoreCall.redisGet (sessionKey T2)]⟩) ∧
    (∀ err, (RedisStore.Get lib env2 T2 ⟨world, ResponseWriter.fresh, []⟩).1 = Except.error err →
      AuthMiddleware lib next env2 r2 ⟨world, ResponseWriter.fresh, []⟩ =
          Except.ok ⟨world,
            ⟨some 401, [("Content-Type", "application/json")],
              [Body.json [("message", JVal.str "Invalid or expired session"),
                ("success", JVal.bool false)]]⟩,
            [StoreCall.redisGet (sessionKey T2)]⟩ ∧
        AuthMiddleware lib next env2 r2
            ⟨(AuthHandler.Logout env r ⟨world, ResponseWriter.fresh, []⟩).world,
              ResponseWriter.fresh, []⟩ =
          Except.ok ⟨(AuthHandler.Logout env r ⟨world, ResponseWriter.fresh, []⟩).world,
            ⟨some 401, [("Content-Type", "application/json")],
              [Body.json [("message", JVal.str "Invalid or expired session"),
                ("success", JVal.bool false)]]⟩,
            [StoreCall.redisGet (sessionKey T2)]⟩) ∧
    (∀ k, k ≠ sessionKey env3.uuid →
      Client.lookup (AuthHandler.Login lib env3 r3 ⟨world, ResponseWriter.fresh, []⟩).world.redis k =
        Client.lookup world.redis k) ∧
    (Client.lookup world.redis (sessionKey env3.uuid) = none →
      ∀ k e, Client.lookup world.redis k = some e →
        Client.lookup (AuthHandler.Login lib env3 r3 ⟨world, ResponseWriter.fresh, []⟩).world.redis
          k = some e) := by
  have hframe : ∀ k, k ≠ sessionKey T1 →
      Client.lookup (AuthHandler.Logout env r ⟨world, ResponseWriter.fresh, []⟩).world.redis k =
        Client.lookup world.redis k := by
    intro k hk
    exact Logout_lookup env r _ k (by rw [hsid]; exact hk)
  have hkey : sessionKey T2 ≠ sessionKey T1 := fun e => hne (sessionKey_inj e).symm
  have hsame : (RedisStore.Get lib env2 T2
        ⟨(AuthHandler.Logout env r ⟨world, ResponseWriter.fresh, []⟩).world,
          ResponseWriter.fresh, []⟩).1 =
      (RedisStore.Get lib env2 T2 ⟨world, ResponseWriter.fresh, []⟩).1 :=
    RedisStore.Get_fst_congr lib env2 T2 _ _ (hframe _ hkey)
  have hne2 : r2.HeaderGet "X-Session-ID" ≠ "" := by rw [hsid2]; exact hT2
  refine ⟨Logout_tables env r _, hframe, hsame, ?_, ?_, ?_, ?_⟩
  · intro sess hg
    constructor
    · rw [AuthMiddleware_of_ok lib next env2 r2 _ sess hne2 (by rw [hsid2]; exact hg), hsid2]
      rfl
    · rw [AuthMiddleware_of_ok lib next env2 r2 _ sess hne2
        (by rw [hsid2, hsame]; exact hg), hsid2]
      rfl
  · intro err hg
    constructor
    · rw [AuthMiddleware_of_error lib next env2 r2 _ err hne2 (by rw [hsid2]; exact hg), hsid2]
      rfl
    · rw [AuthMiddleware_of_error lib next env2 r2 _ err hne2
        (by rw [hsid2, hsame]; exact hg), hsid2]
      rfl
  · intro k hk
    exact Login_lookup lib env3 r3 _ k hk
  · intro hfresh k e hk
    have hkne : k ≠ sessionKey env3.uuid := by
      intro heq
      rw [heq, hfresh] at hk
      cases hk
    rw [Login_lookup lib env3 r3 _ k hkne]
    exact hk

theorem sessions_independent_witness :
    (RedisStore.Get demoLib (demoEnv 3000) demoToken
        ⟨(AuthHandler.Logout (demoEnv 2000) (logoutRequest otherToken)
            ⟨loggedInWorld, ResponseWriter.fresh, []⟩).world,
          ResponseWriter.fresh, []⟩).1 =
      (RedisStore.Get demoLib (demoEnv 3000) demoToken
        ⟨loggedInWorld, ResponseWriter.fresh, []⟩).1 :=
  (sessions_independent demoLib (demoEnv 2000) (logoutRequest otherToken) loggedInWorld
    otherToken demoToken (demoEnv 3000) (postRequest demoToken "hello")
    (PostHandler.CreatePost demoLib) (demoEnv 4000) (loginRequest "good")
    (by decide) (by decide) (by decide) (by decide)).2.2.1

/-- C10. The type assertion of `CreatePost` cannot fail behind `AuthMiddleware`.
As wired in `main`, `AuthMiddleware` around `CreatePost` never panics, and no
route of the table does. Whenever the middleware admits a request, the request
it hands on carries under `user_id` an int equal to the `UserID` of the session
found for the presented token, and under `username` a string equal to its
`Username`; a post created through the route is stored with that `UserID`. -/
theorem create_post_identity_safe (lib : Lib) (env : Env) (r : Request) (s : St) :
    (∃ t, AuthMiddleware lib (PostHandler.CreatePost lib) env r s = Except.ok t) ∧
    (∃ t, mux lib env r s = Except.ok t) ∧
    (∀ sess, r.HeaderGet "X-Session-ID" ≠ "" →
      (RedisStore.Get lib env (r.HeaderGet "X-Session-ID") s).1 = Except.ok sess →
      (∀ next : Handler, AuthMiddleware lib next env r s =
        next env
          (r.WithContext
            ((r.ctx.WithValue "user_id" (Any.int sess.UserID)).WithValue "username"
              (Any.str sess.Username)))
          { s with calls := s.calls ++
            [StoreCall.redisGet (sessionKey (r.HeaderGet "X-Session-ID"))] }) ∧
      (r.WithContext
          ((r.ctx.WithValue "user_id" (Any.int sess.UserID)).WithValue "username"
            (Any.str sess.Username))).ctx.Value "user_id" = some (Any.int sess.UserID) ∧
      (r.WithContext
          ((r.ctx.WithValue "user_id" (Any.int sess.UserID)).WithValue "username"
            (Any.str sess.Username))).ctx.Value "username" = some (Any.str sess.Username) ∧
      (∀ req, r.Method = "POST" → lib.DecodeCreatePostRequest r.Body = some req →
        req.Content ≠ "" → env.dbErr = none →
        s.world.users.any (fun u => u.id == sess.UserID) = true →
        ∃ t, AuthMiddleware lib (PostHandler.CreatePost lib) env r s = Except.ok t ∧
          t.world.posts = s.world.posts ++
            [⟨(s.world.postSeq : Int) + 1, sess.UserID, req.Content, env.now⟩])) := by
  refine ⟨mux_post_total lib env r s, mux_total lib env r s, ?_⟩
  intro sess hne hg
  refine ⟨fun next => AuthMiddleware_of_ok lib next env r s sess hne hg,
    Value_user_id _ _ _, Value_username _ _ _, ?_⟩
  intro req hmethod hbody hcontent hdb hfk
  rw [AuthMiddleware_of_ok lib _ env r s sess hne hg]
  rw [CreatePost_success lib env
    (r.WithContext
      ((r.ctx.WithValue "user_id" (Any.int sess.UserID)).WithValue "username"
        (Any.str sess.Username)))
    { s with calls := s.calls ++ [StoreCall.redisGet (sessionKey (r.HeaderGet "X-Session-ID"))] }
    sess.UserID req hmethod (Value_user_id _ _ _) hbody hcontent hdb hfk]
  exact ⟨_, rfl, rfl⟩

theorem create_post_identity_safe_witness :
    ∃ t, AuthMiddleware demoLib (PostHandler.CreatePost demoLib) (demoEnv 2000)
        (postRequest demoToken "hello") ⟨loggedInWorld, ResponseWriter.fresh, []⟩ = Except.ok t ∧
      t.world.posts = [⟨1, 1, "hello", 2000⟩] :=
  (create_post_identity_safe demoLib (demoEnv 2000) (postRequest demoToken "hello")
    ⟨loggedInWorld, ResponseWriter.fresh, []⟩).2.2 ⟨1, "testuser", 0⟩ (by decide) rfl
    |>.2.2.2 ⟨"hello"⟩ rfl rfl (by decide) rfl rfl

/-- C8, evaluated where it fails. A protected request carrying a live token
while Redis cannot be reached: the middleware calls Redis once and answers
status 401 with message "Invalid or expired session", not status 500. -/
theorem session_lookup_failure_answered_401 :
    AuthMiddleware demoLib (PostHandler.CreatePost demoLib) (redisDownEnv 2000)
        (postRequest demoToken "hello") ⟨loggedInWorld, ResponseWriter.fresh, []⟩ =
      Except.ok ⟨loggedInWorld,
        ⟨some 401, [("Content-Type", "application/json")],
          [Body.json [("message", JVal.str "Invalid or expired session"),
            ("success", JVal.bool false)]]⟩,
        [StoreCall.redisGet (sessionKey demoToken)]⟩ := by
  rfl

end App
